import Mathlib

/-!
# dapla-cli: export client and delete-result report

A shallow embedding of `export/export.go` (the client facade of the
pseudo-service export endpoint) and of the delete-result report exercised by
`cmd/rm_test.go`, with the properties of the specification proved over it.
-/

namespace DaplaCli

/-! ## JSON documents -/

/-- JSON documents as abstract syntax.  Object members keep their textual
order, which is the order `encoding/json` writes struct fields in. -/
inductive Json where
  | null
  | bool (b : Bool)
  | num (n : Int)
  | str (s : String)
  | arr (items : List Json)
  | obj (members : List (String × Json))

namespace Json

/-- The member names of an object, in order (`[]` for any other document). -/
def keys : Json → List String
  | obj members => members.map Prod.fst
  | _ => []

/-- The value of the first member called `k`, if the document is an object
having one. -/
def get? : Json → String → Option Json
  | obj members, k => (members.find? (fun kv => kv.1 == k)).map Prod.snd
  | _, _ => none

end Json

/-! ## `export/export.go`: data model -/

namespace Export

/-- `PseudoRule` represents a single pseudonymization rule. -/
structure PseudoRule where
  Name : String
  Pattern : String
  Func : String

/-- `Request` holds the parameters of the export endpoint.  A Go slice is
either nil (`none`) or a sequence (`some xs`). -/
structure Request where
  DatasetPath : String
  ColumnSelectors : Option (List String)
  TargetContentName : String
  TargetContentType : String
  TargetPassword : String
  Depseudonymize : Bool
  PseudoRules : Option (List PseudoRule)
  PseudoRulesDatasetPath : String

/-- `Response` holds results after exporting a dataset. -/
structure Response where
  TargetURI : String
deriving DecidableEq, Repr

/-- Go `error` values that can reach the caller of `Export`. -/
inductive GoError where
  /-- the value built by `errors.New(s)` -/
  | errorString (s : String)
  /-- an error of `net/http`: a failure below HTTP semantics (connection
  refused, timeout, DNS, TLS) or a redirect that cannot be followed -/
  | transport (cause : String)
  /-- `encoding/json` or `encoding/xml` could not decode the body into the
  result object -/
  | unmarshal (detail : String)
  /-- `net/url` could not parse the request URL -/
  | urlParse (detail : String)
deriving DecidableEq, Repr

/-- The `Error()` message of an error value. -/
def GoError.Error : GoError → String
  | errorString s => s
  | transport cause => cause
  | unmarshal detail => detail
  | urlParse detail => detail

/-- `errors.New`. -/
def errorsNew (s : String) : GoError := GoError.errorString s

/-! ## JSON encoding of the request (`encoding/json` over the struct tags) -/

/-- A `PseudoRule` encodes as an object with the members `name`, `pattern`,
`func`, in field order. -/
def marshalPseudoRule (r : PseudoRule) : Json :=
  Json.obj [("name", Json.str r.Name), ("pattern", Json.str r.Pattern), ("func", Json.str r.Func)]

/-- A `[]string`: `null` for the nil slice, otherwise the array of its
elements in order. -/
def marshalStrings : Option (List String) → Json
  | none => Json.null
  | some xs => Json.arr (xs.map Json.str)

/-- A `[]PseudoRule`: `null` for the nil slice, otherwise the array of the
encoded rules in order. -/
def marshalPseudoRules : Option (List PseudoRule) → Json
  | none => Json.null
  | some rs => Json.arr (rs.map marshalPseudoRule)

/-- The JSON encoding of a `Request`: one member per field, named by its
`json` tag, in field order; no tag carries `omitempty`. -/
def marshalRequest (req : Request) : Json :=
  Json.obj
    [ ("datasetPath", Json.str req.DatasetPath),
      ("columnSelectors", marshalStrings req.ColumnSelectors),
      ("targetContentName", Json.str req.TargetContentName),
      ("targetContentType", Json.str req.TargetContentType),
      ("targetPassword", Json.str req.TargetPassword),
      ("depseudonymize", Json.bool req.Depseudonymize),
      ("pseudoRules", marshalPseudoRules req.PseudoRules),
      ("pseudoRulesDatasetPath", Json.str req.PseudoRulesDatasetPath) ]

/-! ## JSON decoding of the response -/

/-- Whether an object member name selects the field tagged `targetUri`:
`encoding/json` accepts the exact name and any case-insensitive match. -/
def matchesTargetUri (key : String) : Bool :=
  key.data.map Char.toLower == "targeturi".data

/-- Decoding the members of an object into a `Response`, left to right: a
string under a matching name is stored (a later one overwrites an earlier
one), `null` leaves the field alone, any other value under a matching name is
a type error, other names are skipped. -/
def decodeMembers : List (String × Json) → Response → Except GoError Response
  | [], into => Except.ok into
  | (k, v) :: rest, into =>
    if matchesTargetUri k then
      match v with
      | Json.str s => decodeMembers rest { into with TargetURI := s }
      | Json.null => decodeMembers rest into
      | _ => Except.error (GoError.unmarshal "json: cannot unmarshal value into Go struct field Response.targetUri of type string")
    else decodeMembers rest into

/-- `json.Unmarshal(doc, &into)` for a `Response`: an object is decoded
member by member, `null` is a no-op, every other document is a type error. -/
def unmarshalResponse (doc : Json) (into : Response) : Except GoError Response :=
  match doc with
  | Json.obj members => decodeMembers members into
  | Json.null => Except.ok into
  | _ => Except.error (GoError.unmarshal "json: cannot unmarshal value into Go value of type export.Response")

/-! ## XML decoding of the response -/

/-- XML content as abstract syntax: character data and elements with their
children in document order. -/
inductive XmlNode where
  | text (s : String)
  | element (name : String) (children : List XmlNode)

/-- The character data directly inside an element: the text children joined
in order, nested elements skipped. -/
def charData : List XmlNode → String
  | [] => ""
  | XmlNode.text s :: rest => s ++ charData rest
  | XmlNode.element _ _ :: rest => charData rest

/-- Decoding the children of the root element into a `Response`, left to
right: `Response` carries no `xml` tag, so the field is filled from a child
element named `TargetURI` (the comparison is case-sensitive, a later one
overwrites an earlier one); everything else is skipped. -/
def decodeChildren : List XmlNode → Response → Response
  | [], into => into
  | XmlNode.text _ :: rest, into => decodeChildren rest into
  | XmlNode.element name kids :: rest, into =>
    if name = "TargetURI" then decodeChildren rest { into with TargetURI := charData kids }
    else decodeChildren rest into

/-- `xml.Unmarshal(doc, &into)` for a `Response`: the root element may have
any name; a document without a root element is an error. -/
def unmarshalResponseXML (root : XmlNode) (into : Response) : Except GoError Response :=
  match root with
  | XmlNode.element _ children => Except.ok (decodeChildren children into)
  | XmlNode.text _ => Except.error (GoError.unmarshal "EOF")

/-! ## The HTTP layer (`resty` over `net/http`) as `Export` uses it -/

/-- A request on the wire: method, URL, bearer token (`""` when the request
carries no credential) and JSON body. -/
structure HTTPRequest where
  Method : String
  URL : String
  AuthToken : String
  Body : Option Json

/-- How `resty` classifies the `Content-Type` header of an answer: JSON, XML
(when not JSON), or neither. -/
inductive ContentKind where
  | json
  | xml
  | other
deriving DecidableEq, Repr

/-- What the backend answered: status code, status line (`"404 Not Found"`),
the `Location` header if any, the class of the `Content-Type` header, and the
body as the JSON decoder reads its bytes (`none`: not a JSON document) and as
the XML decoder reads them (`none`: not well-formed XML). -/
structure HTTPResponse where
  StatusCode : Nat
  Status : String
  Location : Option String
  Content : ContentKind
  Body : Option Json
  XMLBody : Option XmlNode

/-- One round trip either fails below HTTP or yields a response. -/
inductive Outcome where
  | failure (err : GoError)
  | response (r : HTTPResponse)

/-- The environment of the HTTP layer.  `parseURL` is what `net/url` makes of
a URL string free of control characters (`none`: rejected, otherwise the URL
as it is written on the wire); `resolve` is the target of a `Location` header
relative to the URL of the request it answers; `keepsCredentials` tells, from
the URLs requested so far and the target, whether the `Authorization` header
goes along on a redirect; `lenient` tells whether a 301, 302 or 303 without
`Location` is handed back as a response (it is an error in older releases of
`net/http`); `respond` is the backend with the network in front of it, which
answers a request knowing the requests it has seen before. -/
structure Network where
  parseURL : String → Option String
  resolve : String → String → Option String
  keepsCredentials : List String → String → Bool
  lenient : Bool
  respond : List HTTPRequest → HTTPRequest → Outcome

/-- Whether a string holds an ASCII control character; `net/url` rejects
every such URL. -/
def hasControlByte (s : String) : Bool :=
  s.data.any (fun c => decide (c.toNat < 32) || decide (c.toNat = 127))

/-- The URL a request goes to, if the URL string can be parsed. -/
def acceptedURL (net : Network) (url : String) : Option String :=
  if hasControlByte url then none else net.parseURL url

/-- The status codes `net/http` treats as redirects. -/
def isRedirect (code : Nat) : Bool :=
  code = 301 || code = 302 || code = 303 || code = 307 || code = 308

/-- Whether a redirect keeps method and body (307 and 308 do). -/
def keepsBody (code : Nat) : Bool :=
  code = 307 || code = 308

/-- The request of the next hop after `r` was answered with redirect `code`
to `target`: 307 and 308 keep the method and send the body of the first
request again, the other codes turn everything but `GET` and `HEAD` into a
`GET` without body; the credential of the first request goes along when
`keepsCredentials` says so. -/
def redirectRequest (net : Network) (seen : List HTTPRequest) (first r : HTTPRequest)
    (code : Nat) (target : String) : HTTPRequest :=
  { Method :=
      if keepsBody code then r.Method
      else if r.Method = "GET" ∨ r.Method = "HEAD" then r.Method else "GET",
    URL := target,
    AuthToken :=
      if net.keepsCredentials ((seen ++ [r]).map HTTPRequest.URL) target then first.AuthToken
      else "",
    Body := if keepsBody code then first.Body else none }

/-- `(*http.Client).Do` with the default redirect policy: the request is put
on the wire and a redirect answer with a usable `Location` is followed, up to
ten requests in all.  Returns the final answer or the error, and the requests
the network has seen. -/
def httpDo (net : Network) :
    Nat → List HTTPRequest → HTTPRequest → HTTPRequest →
      Except GoError HTTPResponse × List HTTPRequest
  | 0, seen, _, _ => (Except.error (GoError.transport "stopped after 10 redirects"), seen)
  | fuel + 1, seen, first, r =>
    match net.respond seen r with
    | Outcome.failure e => (Except.error e, seen ++ [r])
    | Outcome.response raw =>
      if isRedirect raw.StatusCode then
        match raw.Location with
        | none =>
          if keepsBody raw.StatusCode || net.lenient then (Except.ok raw, seen ++ [r])
          else (Except.error (GoError.transport "response missing Location header"), seen ++ [r])
        | some loc =>
          match net.resolve r.URL loc with
          | none =>
            (Except.error (GoError.transport "failed to parse Location header"), seen ++ [r])
          | some target =>
            httpDo net fuel (seen ++ [r]) first
              (redirectRequest net seen first r raw.StatusCode target)
      else (Except.ok raw, seen ++ [r])

/-- The part of `resty.Client` that matters here: the debug switch and the
number of retries. -/
structure RestyClient where
  Debug : Bool
  RetryCount : Nat

/-- `resty.New()`: no debug dump, no retries. -/
def restyNew : RestyClient := { Debug := false, RetryCount := 0 }

/-- `(*resty.Client).SetDebug`. -/
def RestyClient.SetDebug (c : RestyClient) (d : Bool) : RestyClient := { c with Debug := d }

/-- A `resty.Request` under construction. -/
structure RestyRequest where
  client : RestyClient
  Body : Option Request
  Token : String
  Result : Option Response

/-- `(*resty.Client).R`. -/
def RestyClient.R (c : RestyClient) : RestyRequest :=
  { client := c, Body := none, Token := "", Result := none }

/-- `(*resty.Request).SetBody`. -/
def RestyRequest.SetBody (r : RestyRequest) (body : Request) : RestyRequest :=
  { r with Body := some body }

/-- `(*resty.Request).SetAuthToken`. -/
def RestyRequest.SetAuthToken (r : RestyRequest) (token : String) : RestyRequest :=
  { r with Token := token }

/-- `(*resty.Request).SetResult`. -/
def RestyRequest.SetResult (r : RestyRequest) (res : Response) : RestyRequest :=
  { r with Result := some res }

/-- A `resty.Response` as `Export` reads it: `StatusCode()`, `Status()` and
`Result()`. -/
structure RestyResponse where
  StatusCode : Nat
  Status : String
  Result : Option Response

/-- An entry of the debug dump of the wire exchange. -/
inductive WireLog where
  | request (r : HTTPRequest)
  | response (r : HTTPResponse)

/-- What a call of the HTTP layer hands back, with its effects: the
`(response, error)` pair, whether the error is one `resty` retries, the
requests the network has seen and the debug dump. -/
structure PostResult where
  resp : RestyResponse
  err : Option GoError
  retryable : Bool
  sent : List HTTPRequest
  log : List WireLog

/-- The decoder `resty` picks for the class of the content type. -/
def decodeBody (raw : HTTPResponse) (into : Response) : Except GoError Response :=
  match raw.Content with
  | ContentKind.json =>
    match raw.Body with
    | none => Except.error (GoError.unmarshal "invalid character looking for beginning of value")
    | some doc => unmarshalResponse doc into
  | ContentKind.xml =>
    match raw.XMLBody with
    | none => Except.error (GoError.unmarshal "XML syntax error")
    | some root => unmarshalResponseXML root into
  | ContentKind.other => Except.ok into

/-- The result object after `resty` has looked at the response.  As
documented on `SetResult`, the body is unmarshalled into the registered object
if the status code is between 200 and 299 and the content type is either JSON
or XML; a 204 response is not parsed.  A failing decode is the error of the
call. -/
def parseResponseBody (raw : HTTPResponse) (result : Option Response) :
    Except GoError (Option Response) :=
  if raw.StatusCode = 204 then Except.ok result
  else if raw.Content ≠ ContentKind.other ∧ 199 < raw.StatusCode ∧ raw.StatusCode < 300 then
    match result with
    | none => Except.ok none
    | some into => (decodeBody raw into).map some
  else Except.ok result

/-- What `resty` makes of the outcome of `httpDo`: an error of `net/http` is
handed back (and is one that is retried); an answer is dumped when debugging
and parsed into the registered result. -/
def finishAttempt (r : RestyRequest) (httpReq : HTTPRequest)
    (outcome : Except GoError HTTPResponse × List HTTPRequest) : PostResult :=
  let reqLog : List WireLog := if r.client.Debug then [WireLog.request httpReq] else []
  match outcome with
  | (Except.error e, seen) =>
    { resp := { StatusCode := 0, Status := "", Result := r.Result },
      err := some e, retryable := true, sent := seen, log := reqLog }
  | (Except.ok raw, seen) =>
    let respLog : List WireLog := if r.client.Debug then [WireLog.response raw] else []
    match parseResponseBody raw r.Result with
    | Except.error e =>
      { resp := { StatusCode := raw.StatusCode, Status := raw.Status, Result := r.Result },
        err := some e, retryable := false, sent := seen, log := reqLog ++ respLog }
    | Except.ok res =>
      { resp := { StatusCode := raw.StatusCode, Status := raw.Status, Result := res },
        err := none, retryable := false, sent := seen, log := reqLog ++ respLog }

/-- One attempt of a `POST` (`resty`'s `execute`): the URL string is parsed,
and nothing is sent when that fails; otherwise the request goes through
`httpDo`.  `seen` are the requests of earlier attempts. -/
def RestyRequest.attempt (r : RestyRequest) (net : Network) (url : String)
    (seen : List HTTPRequest) : PostResult :=
  match acceptedURL net url with
  | none =>
    { resp := { StatusCode := 0, Status := "", Result := r.Result },
      err := some (GoError.urlParse "net/url: invalid URL"), retryable := false,
      sent := seen, log := [] }
  | some u =>
    let httpReq : HTTPRequest :=
      { Method := "POST", URL := u, AuthToken := r.Token, Body := r.Body.map marshalRequest }
    finishAttempt r httpReq (httpDo net 10 seen httpReq httpReq)

/-- The retries of `resty`: while retries are left and the last attempt ended
in an error of `net/http`, the request is attempted again. -/
def RestyRequest.retry (r : RestyRequest) (net : Network) (url : String) :
    Nat → PostResult → PostResult
  | 0, last => last
  | n + 1, last =>
    if last.retryable then
      let next := r.attempt net url last.sent
      r.retry net url n { next with log := last.log ++ next.log }
    else last

/-- `(*resty.Request).Post`: a first attempt, then the retries the client is
configured with. -/
def RestyRequest.Post (r : RestyRequest) (net : Network) (url : String) : PostResult :=
  r.retry net url r.client.RetryCount (r.attempt net url [])

/-! ## `export/export.go`: the client -/

/-- `Client` is a facade against the dapla-pseudo-service API. -/
structure Client where
  baseURL : String
  RestClient : RestyClient
  authToken : String

/-- `NewClient` creates a new client that talks with the dapla-pseudo-service
API. -/
def NewClient (baseURL : String) (token : String) (debug : Bool) : Client :=
  { RestClient := restyNew.SetDebug debug, baseURL := baseURL, authToken := token }

/-- One run of `Export`: the returned `(*Response, error)` pair, the requests
the network has seen and the debug dump. -/
structure ExportRun where
  response : Option Response
  err : Option GoError
  sent : List HTTPRequest
  log : List WireLog

/-- `(*Client).Export` triggers dataset export in the dapla-pseudo-service. -/
def Client.Export (c : Client) (net : Network) (req : Request) : ExportRun :=
  let r := (((c.RestClient.R.SetBody req).SetAuthToken c.authToken).SetResult
    { TargetURI := "" }).Post net (c.baseURL ++ "/export")
  match r.err with
  | some err => { response := none, err := some err, sent := r.sent, log := r.log }
  | none =>
    if r.resp.StatusCode ≥ 400 then
      { response := none, err := some (errorsNew r.resp.Status), sent := r.sent, log := r.log }
    else
      { response := r.resp.Result, err := none, sent := r.sent, log := r.log }

/-- The request `Export` puts on the wire first, for `req` and the parsed
URL `u`. -/
def Client.wireRequest (c : Client) (req : Request) (u : String) : HTTPRequest :=
  { Method := "POST", URL := u, AuthToken := c.authToken, Body := some (marshalRequest req) }

/-- The call of the HTTP layer that `Export` makes for `req`. -/
def Client.exportPost (c : Client) (net : Network) (req : Request) : PostResult :=
  (((c.RestClient.R.SetBody req).SetAuthToken c.authToken).SetResult
    { TargetURI := "" }).Post net (c.baseURL ++ "/export")

/-- The first attempt of that call. -/
def Client.exportAttempt (c : Client) (net : Network) (req : Request) : PostResult :=
  (((c.RestClient.R.SetBody req).SetAuthToken c.authToken).SetResult
    { TargetURI := "" }).attempt net (c.baseURL ++ "/export") []

/-- A network that takes every URL string as it is, follows every `Location`
as it is and keeps the credential, with the given backend. -/
def plainNetwork (respond : List HTTPRequest → HTTPRequest → Outcome) : Network :=
  { parseURL := fun url => some url, resolve := fun _ loc => some loc,
    keepsCredentials := fun _ _ => true, lenient := true, respond := respond }

/-- The network `net` with a backend that answers every request with `raw`. -/
def Network.answeringWith (net : Network) (raw : HTTPResponse) : Network :=
  { net with respond := fun _ _ => Outcome.response raw }

/-- A backend that answers every request with the same response. -/
def answering (raw : HTTPResponse) : Network := plainNetwork (fun _ _ => Outcome.response raw)

/-- A backend that cannot be reached: every round trip fails with `e`. -/
def failing (e : GoError) : Network := plainNetwork (fun _ _ => Outcome.failure e)

/-- A backend that answers the first request it sees with `first` and every
later one with `later`. -/
def answeringThen (first later : HTTPResponse) : Network :=
  plainNetwork (fun seen _ => if seen.isEmpty then Outcome.response first
    else Outcome.response later)

/-- A request used in the worked examples. -/
def sampleRequest : Request :=
  { DatasetPath := "/foo/bar", ColumnSelectors := some ["fnr"], TargetContentName := "bar",
    TargetContentType := "application/json", TargetPassword := "secret",
    Depseudonymize := true, PseudoRules := none, PseudoRulesDatasetPath := "" }

end Export

/-! ## The delete-result report (`cmd`, exercised by `cmd/rm_test.go`) -/

namespace Maintenance

/-- Modelled from the spec: the instant type of `DatasetVersion.timestamp`
(Go's `time.Time`): seconds
since 1970-01-01T00:00:00Z, nanoseconds within that second, and the offset in
seconds east of UTC of the zone the value is expressed in. -/
structure Time where
  sec : Int
  nsec : Nat
  zoneOffset : Int

/-- Modelled from the spec: `DatasetFile` of the missing `maintenance`
package: the location of a deleted file and its non-negative byte count. -/
structure DatasetFile where
  URI : String
  Size : Nat

/-- Modelled from the spec: `DatasetVersion` of the missing `maintenance`
package: a timestamp and the deleted files, in backend order. -/
structure DatasetVersion where
  Timestamp : Time
  DeletedFiles : List DatasetFile

/-- Modelled from the spec: `DeleteDatasetResponse` of the missing
`maintenance` package (the spec's `DeleteResult`): dataset path,
backend-supplied total size and the versions in backend order. -/
structure DeleteDatasetResponse where
  DatasetPath : String
  TotalSize : Int
  DatasetVersion : List DatasetVersion

end Maintenance

namespace Cmd

open Maintenance

/-- Modelled from the spec: the civil date (year, month, day) of a day count
since 1970-01-01 in the proleptic Gregorian calendar, needed to render a
timestamp as `YYYY-MM-DD`; the rendering code is not among the
sources. -/
def civilFromDays (days : Int) : Int × Nat × Nat :=
  let z := days + 719468
  let era := z / 146097
  let doe := (z % 146097).toNat
  let yoe := (doe - doe / 1460 + doe / 36524 - doe / 146096) / 365
  let y := (yoe : Int) + era * 400
  let doy := doe - (365 * yoe + yoe / 4 - yoe / 100)
  let mp := (5 * doy + 2) / 153
  let d := doy - (153 * mp + 2) / 5 + 1
  let m := if mp < 10 then mp + 3 else mp - 9
  (if m ≤ 2 then y + 1 else y, m, d)

/-- The decimal digit character of `n % 10`. -/
def digitChar (n : Nat) : Char := Char.ofNat (48 + n % 10)

/-- The `w` low decimal digits of `n`, most significant first: zero-padded
when `n` is short, truncated when it is long. -/
def fixedDigits : Nat → Nat → List Char
  | 0, _ => []
  | w + 1, n => fixedDigits w (n / 10) ++ [digitChar n]

/-- The number a list of decimal digit characters denotes. -/
def digitsValue (cs : List Char) : Nat :=
  cs.foldl (fun acc c => 10 * acc + (c.toNat - 48)) 0

/-- Modelled from the spec: the `YYYY` part of a rendered timestamp: four
digits, zero-padded; a year outside `0..9999` keeps all its digits and its
sign. -/
def yearText (y : Int) : String :=
  if y < 0 then
    "-" ++ (if y.natAbs < 10000 then String.mk (fixedDigits 4 y.natAbs) else toString y.natAbs)
  else if y.toNat < 10000 then String.mk (fixedDigits 4 y.toNat) else toString y.toNat

/-- Modelled from the spec: the `YYYY-MM-DD` part of a rendered timestamp, in
UTC. -/
def dateText (t : Time) : String :=
  let ymd := civilFromDays (t.sec / 86400)
  yearText ymd.1 ++ "-" ++ String.mk (fixedDigits 2 ymd.2.1) ++ "-" ++
    String.mk (fixedDigits 2 ymd.2.2)

/-- Modelled from the spec: the `HH:MM:SS` part of a rendered timestamp, in
UTC. -/
def clockText (t : Time) : String :=
  let rem := (t.sec % 86400).toNat
  String.mk (fixedDigits 2 (rem / 3600)) ++ ":" ++ String.mk (fixedDigits 2 (rem / 60 % 60)) ++
    ":" ++ String.mk (fixedDigits 2 (rem % 60))

/-- Modelled from the spec: the `ffffff` part of a rendered timestamp: the
microseconds of the second in exactly six digits, sub-microsecond digits
dropped. -/
def fractionText (t : Time) : String :=
  String.mk (fixedDigits 6 (t.nsec / 1000))

/-- Modelled from the spec: the timestamp rendering of §4.1,
`YYYY-MM-DD HH:MM:SS.ffffff +0000 UTC`, always normalised to UTC (the zone of
the value is not consulted) and always with six fractional digits; the
function that renders it is not among the sources. -/
def formatTimestamp (t : Time) : String :=
  dateText t ++ " " ++ clockText t ++ "." ++ fractionText t ++ " +0000 UTC"

/-- Modelled from the spec: the lines written for one version in debug mode:
the `Version:` header, then one tab-indented line per deleted file in input
order. -/
def versionLines (v : DatasetVersion) : List String :=
  ("Version: " ++ formatTimestamp v.Timestamp) :: v.DeletedFiles.map (fun f => "\t" ++ f.URI)

/-- Modelled from the spec: the total file count across all versions, derived
from the lengths of the `deletedFiles` sequences. -/
def deletedFileCount (res : DeleteDatasetResponse) : Nat :=
  (res.DatasetVersion.map (fun v => v.DeletedFiles.length)).sum

/-- Modelled from the spec: the summary line of §4.1; the version count is
the length of the versions sequence. -/
def summaryLine (res : DeleteDatasetResponse) : String :=
  "Dataset " ++ res.DatasetPath ++ " (" ++ toString res.DatasetVersion.length ++
    " versions) successfully deleted"

/-- Modelled from the spec: the debug block of §4.1: the lines of every
version in input order, a blank line, the file count and the backend-supplied
total size. -/
def debugLines (res : DeleteDatasetResponse) : List String :=
  res.DatasetVersion.flatMap versionLines ++
    ["", "number of deleted files: " ++ toString (deletedFileCount res),
      "total size of deleted files: " ++ toString res.TotalSize]

/-- Modelled from the spec: the dry-run notice of §4.1. -/
def dryRunNotice : String := "The dry-run flag was set. NO FILES WERE DELETED."

/-- Modelled from the spec: the lines `printDeleteResponse` writes, as two
separable decisions: the debug block if `debug`, the summary line, the dry-run
notice if `dryRun`.  The line break before the notice is `"\n\r"` in
`cmd/rm_test.go`, so the notice line starts with the carriage return. -/
def reportLines (res : DeleteDatasetResponse) (dryRun debug : Bool) : List String :=
  (if debug then debugLines res else []) ++ [summaryLine res] ++
    (if dryRun then ["\r" ++ dryRunNotice] else [])

/-- Lines joined by line feeds, none after the last. -/
def joinLines : List String → String
  | [] => ""
  | [l] => l
  | l :: ls => l ++ "\n" ++ joinLines ls

/-- Lines each followed by a line feed. -/
def terminatedLines : List String → String
  | [] => ""
  | l :: ls => l ++ "\n" ++ terminatedLines ls

/-- Whether a written line is a file line: it starts with the tab. -/
def isFileLine (l : String) : Bool := l.data.head? == some '\t'

/-- Modelled from the spec: `printDeleteResponse` of `cmd` (its file is
not among the sources; `cmd/rm_test.go` calls it): the text written to
the output sink for a delete result under the dry-run flag and the debug flag
(read from the process-wide configuration in the original, an explicit
parameter here), as the test compares it, without surrounding white space. -/
def printDeleteResponse (res : DeleteDatasetResponse) (dryRun debug : Bool) : String :=
  joinLines (reportLines res dryRun debug)

/-- The lines of a text: the pieces between its line feeds. -/
def splitLines : List Char → List (List Char)
  | [] => [[]]
  | c :: cs =>
    if c = '\n' then [] :: splitLines cs
    else
      match splitLines cs with
      | [] => [[c]]
      | l :: ls => (c :: l) :: ls

/-- The lines of a text, as strings. -/
def textLines (s : String) : List String := (splitLines s.data).map String.mk

/-- A delete result with every file size replaced by `g` of it. -/
def mapSizes (g : Nat → Nat) (res : DeleteDatasetResponse) : DeleteDatasetResponse :=
  { res with DatasetVersion := res.DatasetVersion.map (fun v =>
      { v with DeletedFiles := v.DeletedFiles.map (fun f => { f with Size := g f.Size }) }) }

/-- The delete result of `cmd/rm_test.go`; the timestamps are
2000-01-01T00:00:00.123456Z and 3000-01-01T00:00:00.123456Z. -/
def testResponse : DeleteDatasetResponse :=
  { DatasetPath := "/foo/bar",
    TotalSize := 15,
    DatasetVersion :=
      [ { Timestamp := { sec := 946684800, nsec := 123456000, zoneOffset := 0 },
          DeletedFiles :=
            [ { URI := "gs://bucket/prefix/foo/bar/v1/file1", Size := 1 },
              { URI := "gs://bucket/prefix/foo/bar/v1/file2", Size := 2 } ] },
        { Timestamp := { sec := 32503680000, nsec := 123456000, zoneOffset := 0 },
          DeletedFiles :=
            [ { URI := "gs://bucket/prefix/foo/bar/v2/file1", Size := 4 },
              { URI := "gs://bucket/prefix/foo/bar/v2/file2", Size := 8 } ] } ] }

end Cmd

namespace Export

/-! ## Properties of `Export` -/

theorem isRedirect_eq_false_of_ge_400 (n : Nat) (h : 400 ≤ n) : isRedirect n = false := by
  have h1 : n ≠ 301 := by omega
  have h2 : n ≠ 302 := by omega
  have h3 : n ≠ 303 := by omega
  have h4 : n ≠ 307 := by omega
  have h5 : n ≠ 308 := by omega
  simp [isRedirect, h1, h2, h3, h4, h5]

theorem httpDo_failure (net : Network) (fuel : Nat) (seen : List HTTPRequest)
    (first r : HTTPRequest) (e : GoError) (h : net.respond seen r = Outcome.failure e) :
    httpDo net (fuel + 1) seen first r = (Except.error e, seen ++ [r]) := by
  simp [httpDo, h]

theorem httpDo_final (net : Network) (fuel : Nat) (seen : List HTTPRequest)
    (first r : HTTPRequest) (raw : HTTPResponse)
    (h : net.respond seen r = Outcome.response raw) (hred : isRedirect raw.StatusCode = false) :
    httpDo net (fuel + 1) seen first r = (Except.ok raw, seen ++ [r]) := by
  simp [httpDo, h, hred]

theorem httpDo_no_location (net : Network) (fuel : Nat) (seen : List HTTPRequest)
    (first r : HTTPRequest) (raw : HTTPResponse)
    (h : net.respond seen r = Outcome.response raw) (hloc : raw.Location = none) :
    (httpDo net (fuel + 1) seen first r).2 = seen ++ [r] := by
  simp only [httpDo, h, hloc]
  split
  · split <;> rfl
  · rfl

theorem httpDo_unresolved (net : Network) (fuel : Nat) (seen : List HTTPRequest)
    (first r : HTTPRequest) (raw : HTTPResponse) (loc : String)
    (h : net.respond seen r = Outcome.response raw) (hloc : raw.Location = some loc)
    (hres : net.resolve r.URL loc = none) :
    (httpDo net (fuel + 1) seen first r).2 = seen ++ [r] := by
  simp only [httpDo, h, hloc, hres]
  split <;> rfl

theorem httpDo_follow (net : Network) (fuel : Nat) (seen : List HTTPRequest)
    (first r : HTTPRequest) (raw : HTTPResponse) (loc target : String)
    (h : net.respond seen r = Outcome.response raw) (hred : isRedirect raw.StatusCode = true)
    (hloc : raw.Location = some loc) (hres : net.resolve r.URL loc = some target) :
    httpDo net (fuel + 1) seen first r =
      httpDo net fuel (seen ++ [r]) first (redirectRequest net seen first r raw.StatusCode target) := by
  simp [httpDo, h, hred, hloc, hres]

/-- The requests `httpDo` adds to the ones seen before: at most `fuel`, and
the request it was given first whenever `fuel` is positive. -/
theorem httpDo_trace (net : Network) (fuel : Nat) (seen : List HTTPRequest)
    (first r : HTTPRequest) :
    ∃ extra : List HTTPRequest, (httpDo net fuel seen first r).2 = seen ++ extra ∧
      extra.length ≤ fuel ∧ (0 < fuel → extra.head? = some r) := by
  induction fuel generalizing seen r with
  | zero => exact ⟨[], by simp [httpDo], by simp, by simp⟩
  | succ fuel ih =>
    cases hr : net.respond seen r with
    | failure e =>
      rw [httpDo_failure net fuel seen first r e hr]
      exact ⟨[r], rfl, by simp, by simp⟩
    | response raw =>
      cases hred : isRedirect raw.StatusCode with
      | false =>
        rw [httpDo_final net fuel seen first r raw hr hred]
        exact ⟨[r], rfl, by simp, by simp⟩
      | true =>
        cases hloc : raw.Location with
        | none =>
          exact ⟨[r], httpDo_no_location net fuel seen first r raw hr hloc, by simp, by simp⟩
        | some loc =>
          cases hres : net.resolve r.URL loc with
          | none =>
            exact ⟨[r], httpDo_unresolved net fuel seen first r raw loc hr hloc hres, by simp,
              by simp⟩
          | some target =>
            rw [httpDo_follow net fuel seen first r raw loc target hr hred hloc hres]
            obtain ⟨extra, hx, hlen, _⟩ :=
              ih (seen ++ [r]) (redirectRequest net seen first r raw.StatusCode target)
            refine ⟨r :: extra, ?_, ?_, ?_⟩
            · rw [hx]; simp
            · simp; omega
            · simp

theorem retry_of_not_retryable (r : RestyRequest) (net : Network) (url : String) (n : Nat)
    (last : PostResult) (h : last.retryable = false) : r.retry net url n last = last := by
  cases n with
  | zero => rfl
  | succ n => simp [RestyRequest.retry, h]

theorem exportPost_eq (c : Client) (net : Network) (req : Request) :
    c.exportPost net req =
      RestyRequest.retry
        { client := c.RestClient, Body := some req, Token := c.authToken,
          Result := some { TargetURI := "" } }
        net (c.baseURL ++ "/export") c.RestClient.RetryCount (c.exportAttempt net req) := rfl

theorem exportPost_of_not_retryable (c : Client) (net : Network) (req : Request)
    (h : (c.exportAttempt net req).retryable = false) :
    c.exportPost net req = c.exportAttempt net req := by
  rw [exportPost_eq, retry_of_not_retryable _ _ _ _ _ h]

theorem exportPost_NewClient (baseURL token : String) (debug : Bool) (net : Network)
    (req : Request) :
    (NewClient baseURL token debug).exportPost net req =
      (NewClient baseURL token debug).exportAttempt net req := rfl

theorem Export_eq (c : Client) (net : Network) (req : Request) :
    c.Export net req =
      match (c.exportPost net req).err with
      | some err => { response := none, err := some err, sent := (c.exportPost net req).sent,
                      log := (c.exportPost net req).log }
      | none =>
        if (c.exportPost net req).resp.StatusCode ≥ 400 then
          { response := none, err := some (errorsNew (c.exportPost net req).resp.Status),
            sent := (c.exportPost net req).sent, log := (c.exportPost net req).log }
        else
          { response := (c.exportPost net req).resp.Result, err := none,
            sent := (c.exportPost net req).sent, log := (c.exportPost net req).log } := rfl

theorem Export_sent (c : Client) (net : Network) (req : Request) :
    (c.Export net req).sent = (c.exportPost net req).sent := by
  rw [Export_eq]
  cases (c.exportPost net req).err with
  | some e => rfl
  | none =>
    simp only
    split <;> rfl

theorem Export_log (c : Client) (net : Network) (req : Request) :
    (c.Export net req).log = (c.exportPost net req).log := by
  rw [Export_eq]
  cases (c.exportPost net req).err with
  | some e => rfl
  | none =>
    simp only
    split <;> rfl

theorem exportAttempt_rejected (c : Client) (net : Network) (req : Request)
    (hurl : acceptedURL net (c.baseURL ++ "/export") = none) :
    c.exportAttempt net req =
      { resp := { StatusCode := 0, Status := "", Result := some { TargetURI := "" } },
        err := some (GoError.urlParse "net/url: invalid URL"), retryable := false,
        sent := [], log := [] } := by
  simp [Client.exportAttempt, RestyRequest.attempt, hurl, RestyClient.R, RestyRequest.SetBody,
    RestyRequest.SetAuthToken, RestyRequest.SetResult]

theorem exportAttempt_accepted (c : Client) (net : Network) (req : Request) (u : String)
    (hurl : acceptedURL net (c.baseURL ++ "/export") = some u) :
    c.exportAttempt net req =
      finishAttempt
        { client := c.RestClient, Body := some req, Token := c.authToken,
          Result := some { TargetURI := "" } }
        (c.wireRequest req u)
        (httpDo net 10 [] (c.wireRequest req u) (c.wireRequest req u)) := by
  simp [Client.exportAttempt, RestyRequest.attempt, hurl, RestyClient.R, RestyRequest.SetBody,
    RestyRequest.SetAuthToken, RestyRequest.SetResult, Client.wireRequest]

theorem finishAttempt_sent (r : RestyRequest) (httpReq : HTTPRequest)
    (outcome : Except GoError HTTPResponse × List HTTPRequest) :
    (finishAttempt r httpReq outcome).sent = outcome.2 := by
  rcases outcome with ⟨o, seen⟩
  cases o with
  | error e => rfl
  | ok raw =>
    simp only [finishAttempt]
    split <;> rfl

theorem finishAttempt_ok (r : RestyRequest) (httpReq : HTTPRequest)
    (outcome : Except GoError HTTPResponse × List HTTPRequest) (raw : HTTPResponse)
    (h : outcome.1 = Except.ok raw) :
    (finishAttempt r httpReq outcome).retryable = false ∧
    (finishAttempt r httpReq outcome).resp.StatusCode = raw.StatusCode ∧
    (finishAttempt r httpReq outcome).resp.Status = raw.Status ∧
    (∀ e, parseResponseBody raw r.Result = Except.error e →
      (finishAttempt r httpReq outcome).err = some e) ∧
    (∀ res, parseResponseBody raw r.Result = Except.ok res →
      (finishAttempt r httpReq outcome).err = none ∧
      (finishAttempt r httpReq outcome).resp.Result = res) := by
  rcases outcome with ⟨o, seen⟩
  simp only at h
  subst h
  simp only [finishAttempt]
  cases hp : parseResponseBody raw r.Result with
  | error e => simp
  | ok res => simp

/-- What `Export` returns once the exchange has ended in the answer `raw`. -/
theorem Export_of_answer (c : Client) (net : Network) (req : Request) (u : String)
    (raw : HTTPResponse) (hurl : acceptedURL net (c.baseURL ++ "/export") = some u)
    (hdo : (httpDo net 10 [] (c.wireRequest req u) (c.wireRequest req u)).1 = Except.ok raw) :
    (∀ e, parseResponseBody raw (some { TargetURI := "" }) = Except.error e →
      (c.Export net req).response = none ∧ (c.Export net req).err = some e) ∧
    (∀ res, parseResponseBody raw (some { TargetURI := "" }) = Except.ok res →
      400 ≤ raw.StatusCode →
      (c.Export net req).response = none ∧
        (c.Export net req).err = some (errorsNew raw.Status)) ∧
    (∀ res, parseResponseBody raw (some { TargetURI := "" }) = Except.ok res →
      raw.StatusCode < 400 →
      (c.Export net req).response = res ∧ (c.Export net req).err = none) := by
  have hfin := finishAttempt_ok
    { client := c.RestClient, Body := some req, Token := c.authToken,
      Result := some { TargetURI := "" } }
    (c.wireRequest req u) _ raw hdo
  rw [← exportAttempt_accepted c net req u hurl] at hfin
  obtain ⟨hretry, hcode, hstatus, herr, hok⟩ := hfin
  have hpost := exportPost_of_not_retryable c net req hretry
  refine ⟨?_, ?_, ?_⟩
  · intro e he
    rw [Export_eq, hpost, herr e he]
    exact ⟨rfl, rfl⟩
  · intro res hres h400
    have h400' : (c.exportAttempt net req).resp.StatusCode ≥ 400 := by rw [hcode]; exact h400
    rw [Export_eq, hpost, (hok res hres).1]
    simp [h400', hstatus]
  · intro res hres hlt
    have hlt' : ¬ (c.exportAttempt net req).resp.StatusCode ≥ 400 := by rw [hcode]; omega
    rw [Export_eq, hpost, (hok res hres).1]
    simp [hlt', (hok res hres).2]

theorem parseResponseBody_of_ge_400 (raw : HTTPResponse) (result : Option Response)
    (h : 400 ≤ raw.StatusCode) : parseResponseBody raw result = Except.ok result := by
  unfold parseResponseBody
  have h1 : ¬ raw.StatusCode = 204 := by omega
  have h2 : ¬ raw.StatusCode < 300 := by omega
  simp [h1, h2]

theorem parseResponseBody_outside_window (raw : HTTPResponse) (result : Option Response)
    (h : raw.StatusCode = 204 ∨ raw.Content = ContentKind.other ∨ raw.StatusCode ≤ 199 ∨
      300 ≤ raw.StatusCode) : parseResponseBody raw result = Except.ok result := by
  unfold parseResponseBody
  by_cases h204 : raw.StatusCode = 204
  · simp [h204]
  · rcases h with h | h | h | h
    · exact absurd h h204
    · simp [h]
    · have : ¬ 199 < raw.StatusCode := by omega
      simp [this]
    · have : ¬ raw.StatusCode < 300 := by omega
      simp [this]

theorem parseResponseBody_inside_window (raw : HTTPResponse) (into : Response)
    (hkind : raw.Content ≠ ContentKind.other) (hlo : 200 ≤ raw.StatusCode)
    (hhi : raw.StatusCode ≤ 299) (h204 : raw.StatusCode ≠ 204) :
    parseResponseBody raw (some into) = (decodeBody raw into).map some := by
  unfold parseResponseBody
  have h1 : 199 < raw.StatusCode := by omega
  have h2 : raw.StatusCode < 300 := by omega
  simp [h204, hkind, h1, h2]

theorem parseResponseBody_some (raw : HTTPResponse) (into : Response) (res : Option Response)
    (h : parseResponseBody raw (some into) = Except.ok res) : ∃ r, res = some r := by
  unfold parseResponseBody at h
  split at h
  · exact ⟨into, by cases h; rfl⟩
  · split at h
    · cases hu : decodeBody raw into with
      | error e => simp [hu, Except.map] at h
      | ok r =>
        simp only [hu, Except.map] at h
        exact ⟨r, by cases h; rfl⟩
    · exact ⟨into, by cases h; rfl⟩

/-- C1: when the exchange ends in an answer with a status code of 400 or
more, and in particular when the backend answers the request of `Export` with
one, `Export` returns a nil `Response` and the error `errors.New(status line)`,
whose message is exactly the status line; the same holds when the backend
answers with any other content type and body, so the body has no influence on
the returned error. -/
theorem Export_backend_error (c : Client) (net : Network) (req : Request) (u : String)
    (raw : HTTPResponse) (hurl : acceptedURL net (c.baseURL ++ "/export") = some u)
    (hcode : 400 ≤ raw.StatusCode) :
    ((httpDo net 10 [] (c.wireRequest req u) (c.wireRequest req u)).1 = Except.ok raw →
      (c.Export net req).response = none ∧
      (c.Export net req).err = some (errorsNew raw.Status) ∧
      (∀ e, (c.Export net req).err = some e → e.Error = raw.Status)) ∧
    (net.respond [] (c.wireRequest req u) = Outcome.response raw →
      (c.Export net req).response = none ∧
      (c.Export net req).err = some (errorsNew raw.Status) ∧
      (∀ e, (c.Export net req).err = some e → e.Error = raw.Status) ∧
      (∀ (kind : ContentKind) (body : Option Json) (xml : Option XmlNode),
        (c.Export (net.answeringWith { raw with Content := kind, Body := body, XMLBody := xml })
          req).response = none ∧
        (c.Export (net.answeringWith { raw with Content := kind, Body := body, XMLBody := xml })
          req).err = (c.Export net req).err)) := by
  have key : ∀ (net' : Network) (raw' : HTTPResponse),
      acceptedURL net' (c.baseURL ++ "/export") = some u → 400 ≤ raw'.StatusCode →
      (httpDo net' 10 [] (c.wireRequest req u) (c.wireRequest req u)).1 = Except.ok raw' →
      (c.Export net' req).response = none ∧
        (c.Export net' req).err = some (errorsNew raw'.Status) := by
    intro net' raw' hurl' hcode' hdo
    exact (Export_of_answer c net' req u raw' hurl' hdo).2.1 _
      (parseResponseBody_of_ge_400 raw' _ hcode') hcode'
  have msg : ∀ e, (c.Export net req).err = some (errorsNew raw.Status) →
      (c.Export net req).err = some e → e.Error = raw.Status := by
    intro e h1 h2
    rw [h1] at h2
    cases h2
    rfl
  refine ⟨?_, ?_⟩
  · intro hdo
    have h := key net raw hurl hcode hdo
    exact ⟨h.1, h.2, fun e he => msg e h.2 he⟩
  · intro hresp
    have hdo : (httpDo net 10 [] (c.wireRequest req u) (c.wireRequest req u)).1 = Except.ok raw := by
      rw [httpDo_final net 9 [] _ _ raw hresp (isRedirect_eq_false_of_ge_400 _ hcode)]
    have h := key net raw hurl hcode hdo
    refine ⟨h.1, h.2, fun e he => msg e h.2 he, ?_⟩
    intro kind body xml
    have hdo' : (httpDo (net.answeringWith
          { raw with Content := kind, Body := body, XMLBody := xml }) 10 []
        (c.wireRequest req u) (c.wireRequest req u)).1 =
        Except.ok { raw with Content := kind, Body := body, XMLBody := xml } := by
      rw [httpDo_final _ 9 [] _ _ { raw with Content := kind, Body := body, XMLBody := xml } rfl
        (isRedirect_eq_false_of_ge_400 _ hcode)]
    have h' := key (net.answeringWith { raw with Content := kind, Body := body, XMLBody := xml })
      { raw with Content := kind, Body := body, XMLBody := xml } hurl hcode hdo'
    exact ⟨h'.1, by rw [h'.2, h.2]⟩

theorem Export_backend_error_witness :
    ((NewClient "https://pseudo" "tok" false).Export
        (answering { StatusCode := 404, Status := "404 Not Found", Location := none,
                     Content := ContentKind.json,
                     Body := some (Json.obj [("targetUri", Json.str "gs://b/x")]),
                     XMLBody := none })
        sampleRequest).err
      = some (errorsNew "404 Not Found") :=
  ((Export_backend_error (NewClient "https://pseudo" "tok" false)
    (answering { StatusCode := 404, Status := "404 Not Found", Location := none,
                 Content := ContentKind.json,
                 Body := some (Json.obj [("targetUri", Json.str "gs://b/x")]),
                 XMLBody := none })
    sampleRequest "https://pseudo/export"
    { StatusCode := 404, Status := "404 Not Found", Location := none,
      Content := ContentKind.json,
      Body := some (Json.obj [("targetUri", Json.str "gs://b/x")]), XMLBody := none }
    (by decide) (by decide)).2 rfl).2.1

theorem Export_of_post_error (c : Client) (net : Network) (req : Request) (e : GoError)
    (h : (c.exportPost net req).err = some e) :
    (c.Export net req).response = none ∧ (c.Export net req).err = some e := by
  rw [Export_eq, h]
  exact ⟨rfl, rfl⟩

/-- C2: when the round trip fails below HTTP with error `e`, `Export` on a
client built by `NewClient` returns a nil `Response` together with `e` itself,
and the network has seen exactly one request (no second attempt); and on every
client an error of the HTTP layer is returned as it is, with a nil
`Response`. -/
theorem Export_transport_failure (baseURL token : String) (debug : Bool) (net : Network)
    (req : Request) (u : String) (e : GoError)
    (hurl : acceptedURL net (baseURL ++ "/export") = some u)
    (hfail : net.respond [] ((NewClient baseURL token debug).wireRequest req u) =
      Outcome.failure e) :
    ((NewClient baseURL token debug).Export net req).response = none ∧
    ((NewClient baseURL token debug).Export net req).err = some e ∧
    ((NewClient baseURL token debug).Export net req).sent =
      [(NewClient baseURL token debug).wireRequest req u] ∧
    (∀ (c : Client) (e' : GoError), (c.exportPost net req).err = some e' →
      (c.Export net req).response = none ∧ (c.Export net req).err = some e') := by
  have hatt := exportAttempt_accepted (NewClient baseURL token debug) net req u hurl
  rw [httpDo_failure net 9 [] _ _ e hfail] at hatt
  have hpost : (NewClient baseURL token debug).exportPost net req =
      (NewClient baseURL token debug).exportAttempt net req := rfl
  have herr : ((NewClient baseURL token debug).exportPost net req).err = some e := by
    rw [hpost, hatt]; rfl
  have hsent : ((NewClient baseURL token debug).exportPost net req).sent =
      [(NewClient baseURL token debug).wireRequest req u] := by
    rw [hpost, hatt]; rfl
  have h := Export_of_post_error _ net req e herr
  refine ⟨h.1, h.2, ?_, fun c e' he' => Export_of_post_error c net req e' he'⟩
  rw [Export_sent, hsent]

theorem Export_transport_failure_witness :
    ((NewClient "https://pseudo" "tok" false).Export
        (failing (GoError.transport "dial tcp: connection refused")) sampleRequest).err
      = some (GoError.transport "dial tcp: connection refused") :=
  (Export_transport_failure "https://pseudo" "tok" false
    (failing (GoError.transport "dial tcp: connection refused")) sampleRequest
    "https://pseudo/export" (GoError.transport "dial tcp: connection refused")
    (by decide) rfl).2.1

/-- C3 as stated fails on three answers with a status code below 400 and no
transport failure: a `300` whose JSON body names a `targetUri` yields the empty
`Response`, not the decoded body; so does a `200` whose content type is
neither JSON nor XML; and a `200` JSON answer whose `targetUri` is a number
makes `Export` return an error. -/
theorem Export_success_claim_counterexample :
    (unmarshalResponse (Json.obj [("targetUri", Json.str "gs://b/x")]) { TargetURI := "" }
        = Except.ok { TargetURI := "gs://b/x" } ∧
      ((NewClient "https://pseudo" "tok" false).Export
        (answering { StatusCode := 300, Status := "300 Multiple Choices", Location := none,
                     Content := ContentKind.json,
                     Body := some (Json.obj [("targetUri", Json.str "gs://b/x")]),
                     XMLBody := none })
        sampleRequest).response = some { TargetURI := "" } ∧
      ((NewClient "https://pseudo" "tok" false).Export
        (answering { StatusCode := 300, Status := "300 Multiple Choices", Location := none,
                     Content := ContentKind.json,
                     Body := some (Json.obj [("targetUri", Json.str "gs://b/x")]),
                     XMLBody := none })
        sampleRequest).err = none) ∧
    (((NewClient "https://pseudo" "tok" false).Export
        (answering { StatusCode := 200, Status := "200 OK", Location := none,
                     Content := ContentKind.other,
                     Body := some (Json.obj [("targetUri", Json.str "gs://b/x")]),
                     XMLBody := none })
        sampleRequest).response = some { TargetURI := "" }) ∧
    (((NewClient "https://pseudo" "tok" false).Export
        (answering { StatusCode := 200, Status := "200 OK", Location := none,
                     Content := ContentKind.json,
                     Body := some (Json.obj [("targetUri", Json.num 5)]), XMLBody := none })
        sampleRequest).response = none ∧
      ((NewClient "https://pseudo" "tok" false).Export
        (answering { StatusCode := 200, Status := "200 OK", Location := none,
                     Content := ContentKind.json,
                     Body := some (Json.obj [("targetUri", Json.num 5)]), XMLBody := none })
        sampleRequest).err ≠ none) := by
  refine ⟨⟨?_, ?_, ?_⟩, ?_, ?_, ?_⟩
  · simp [unmarshalResponse, decodeMembers, matchesTargetUri]
  · decide
  · decide
  · decide
  · decide
  · decide

theorem Export_err_iff (c : Client) (net : Network) (req : Request) :
    (c.Export net req).err ≠ none ↔
      ((c.exportPost net req).err ≠ none ∨ 400 ≤ (c.exportPost net req).resp.StatusCode) := by
  rw [Export_eq]
  cases h : (c.exportPost net req).err with
  | some e => simp
  | none =>
    by_cases hc : 400 ≤ (c.exportPost net req).resp.StatusCode
    · simp [hc]
    · simp [hc]

/-- C3 (amended): `Export` returns an error exactly when the HTTP layer
returned one or the status code is 400 or more.  When the exchange ends in an
answer with a status code below 400: if the HTTP layer reports no error,
`Export` returns a nil error and a non-nil `Response`, the result object
registered on the request; that object holds the decoded body when the status
code is from 200 to 299 other than 204 and the content type is JSON (so a
`200` JSON answer with body `{"targetUri": u}` yields `TargetURI = u`) or XML
(so a `200` XML answer whose root holds `<TargetURI>u</TargetURI>` yields
`TargetURI = u`), and is the empty `Response` for every other answer; a body
that cannot be decoded in that window is returned as the error of the call. -/
theorem Export_success (c : Client) (net : Network) (req : Request) :
    ((c.Export net req).err ≠ none ↔
      ((c.exportPost net req).err ≠ none ∨
        400 ≤ (c.exportPost net req).resp.StatusCode)) ∧
    (∀ (u : String) (raw : HTTPResponse),
      acceptedURL net (c.baseURL ++ "/export") = some u →
      (httpDo net 10 [] (c.wireRequest req u) (c.wireRequest req u)).1 = Except.ok raw →
      raw.StatusCode < 400 →
      (∀ res, parseResponseBody raw (some { TargetURI := "" }) = Except.ok res →
        (c.Export net req).err = none ∧ (c.Export net req).response = res ∧
          ∃ r, res = some r) ∧
      (∀ doc r, raw.Content = ContentKind.json → 200 ≤ raw.StatusCode →
        raw.StatusCode ≤ 299 → raw.StatusCode ≠ 204 → raw.Body = some doc →
        unmarshalResponse doc { TargetURI := "" } = Except.ok r →
        (c.Export net req).response = some r ∧ (c.Export net req).err = none) ∧
      (∀ root r, raw.Content = ContentKind.xml → 200 ≤ raw.StatusCode →
        raw.StatusCode ≤ 299 → raw.StatusCode ≠ 204 → raw.XMLBody = some root →
        unmarshalResponseXML root { TargetURI := "" } = Except.ok r →
        (c.Export net req).response = some r ∧ (c.Export net req).err = none) ∧
      (∀ v, raw.Content = ContentKind.json → raw.StatusCode = 200 →
        raw.Body = some (Json.obj [("targetUri", Json.str v)]) →
        (c.Export net req).response = some { TargetURI := v } ∧
          (c.Export net req).err = none) ∧
      (∀ name v, raw.Content = ContentKind.xml → raw.StatusCode = 200 →
        raw.XMLBody =
          some (XmlNode.element name [XmlNode.element "TargetURI" [XmlNode.text v]]) →
        (c.Export net req).response = some { TargetURI := v } ∧
          (c.Export net req).err = none) ∧
      ((raw.StatusCode = 204 ∨ raw.Content = ContentKind.other ∨ raw.StatusCode ≤ 199 ∨
          300 ≤ raw.StatusCode) →
        (c.Export net req).response = some { TargetURI := "" } ∧
          (c.Export net req).err = none) ∧
      (∀ e, parseResponseBody raw (some { TargetURI := "" }) = Except.error e →
        (c.Export net req).response = none ∧ (c.Export net req).err = some e)) := by
  refine ⟨Export_err_iff c net req, ?_⟩
  intro u raw hurl hdo hcode
  obtain ⟨herr, _, hok'⟩ := Export_of_answer c net req u raw hurl hdo
  have hok : ∀ res, parseResponseBody raw (some { TargetURI := "" }) = Except.ok res →
      (c.Export net req).err = none ∧ (c.Export net req).response = res :=
    fun res hres => ⟨(hok' res hres hcode).2, (hok' res hres hcode).1⟩
  have hjson : ∀ doc r, raw.Content = ContentKind.json → 200 ≤ raw.StatusCode →
      raw.StatusCode ≤ 299 → raw.StatusCode ≠ 204 → raw.Body = some doc →
      unmarshalResponse doc { TargetURI := "" } = Except.ok r →
      (c.Export net req).response = some r ∧ (c.Export net req).err = none := by
    intro doc r hkind hlo hhi h204 hbody hdec
    have hp := parseResponseBody_inside_window raw { TargetURI := "" } (by simp [hkind]) hlo hhi
      h204
    have hd : decodeBody raw { TargetURI := "" } = Except.ok r := by
      simp [decodeBody, hkind, hbody, hdec]
    rw [hd] at hp
    exact ⟨(hok (some r) hp).2, (hok (some r) hp).1⟩
  have hxml : ∀ root r, raw.Content = ContentKind.xml → 200 ≤ raw.StatusCode →
      raw.StatusCode ≤ 299 → raw.StatusCode ≠ 204 → raw.XMLBody = some root →
      unmarshalResponseXML root { TargetURI := "" } = Except.ok r →
      (c.Export net req).response = some r ∧ (c.Export net req).err = none := by
    intro root r hkind hlo hhi h204 hbody hdec
    have hp := parseResponseBody_inside_window raw { TargetURI := "" } (by simp [hkind]) hlo hhi
      h204
    have hd : decodeBody raw { TargetURI := "" } = Except.ok r := by
      simp [decodeBody, hkind, hbody, hdec]
    rw [hd] at hp
    exact ⟨(hok (some r) hp).2, (hok (some r) hp).1⟩
  refine ⟨?_, hjson, hxml, ?_, ?_, ?_, herr⟩
  · intro res hres
    exact ⟨(hok res hres).1, (hok res hres).2, parseResponseBody_some raw _ res hres⟩
  · intro v hkind h200 hbody
    exact hjson _ _ hkind (by omega) (by omega) (by omega) hbody
      (by simp [unmarshalResponse, decodeMembers, matchesTargetUri])
  · intro name v hkind h200 hbody
    exact hxml _ _ hkind (by omega) (by omega) (by omega) hbody
      (by simp [unmarshalResponseXML, decodeChildren, charData])
  · intro hout
    have hp := parseResponseBody_outside_window raw (some { TargetURI := "" }) hout
    exact ⟨(hok _ hp).2, (hok _ hp).1⟩

theorem Export_success_witness :
    ((NewClient "https://pseudo" "tok" false).Export
        (answering { StatusCode := 200, Status := "200 OK", Location := none,
                     Content := ContentKind.json,
                     Body := some (Json.obj [("targetUri", Json.str "gs://b/x")]),
                     XMLBody := none })
        sampleRequest).response = some { TargetURI := "gs://b/x" } ∧
    ((NewClient "https://pseudo" "tok" false).Export
        (answering { StatusCode := 200, Status := "200 OK", Location := none,
                     Content := ContentKind.json,
                     Body := some (Json.obj [("targetUri", Json.str "gs://b/x")]),
                     XMLBody := none })
        sampleRequest).err = none :=
  ((Export_success (NewClient "https://pseudo" "tok" false)
    (answering { StatusCode := 200, Status := "200 OK", Location := none,
                 Content := ContentKind.json,
                 Body := some (Json.obj [("targetUri", Json.str "gs://b/x")]),
                 XMLBody := none })
    sampleRequest).2 "https://pseudo/export"
    { StatusCode := 200, Status := "200 OK", Location := none, Content := ContentKind.json,
      Body := some (Json.obj [("targetUri", Json.str "gs://b/x")]), XMLBody := none }
    (by decide) rfl (by decide)).2.2.2.1 "gs://b/x" rfl rfl rfl

theorem attempt_sent (r : RestyRequest) (net : Network) (url : String)
    (seen : List HTTPRequest) :
    ∃ extra : List HTTPRequest, (r.attempt net url seen).sent = seen ++ extra ∧
      extra.length ≤ 10 ∧
      (acceptedURL net url = none → extra = []) ∧
      (∀ u, acceptedURL net url = some u → extra.head? =
        some { Method := "POST", URL := u, AuthToken := r.Token,
               Body := r.Body.map marshalRequest }) := by
  cases hurl : acceptedURL net url with
  | none =>
    refine ⟨[], ?_, by simp, (fun _ => rfl), (fun u hu => nomatch hu)⟩
    simp [RestyRequest.attempt, hurl]
  | some u =>
    obtain ⟨extra, hx, hlen, hhead⟩ := httpDo_trace net 10 seen
      { Method := "POST", URL := u, AuthToken := r.Token, Body := r.Body.map marshalRequest }
      { Method := "POST", URL := u, AuthToken := r.Token, Body := r.Body.map marshalRequest }
    refine ⟨extra, ?_, hlen, (fun h => nomatch h), ?_⟩
    · simp only [RestyRequest.attempt, hurl]
      rw [finishAttempt_sent, hx]
    · intro u' hu'
      cases hu'
      exact hhead (by decide)

theorem retry_sent (r : RestyRequest) (net : Network) (url : String) (n : Nat)
    (last : PostResult) :
    ∃ extra : List HTTPRequest, (r.retry net url n last).sent = last.sent ++ extra := by
  induction n generalizing last with
  | zero => exact ⟨[], by simp [RestyRequest.retry]⟩
  | succ n ih =>
    by_cases hre : last.retryable = true
    · obtain ⟨e1, h1, _⟩ := attempt_sent r net url last.sent
      obtain ⟨e2, h2⟩ := ih { r.attempt net url last.sent with
        log := last.log ++ (r.attempt net url last.sent).log }
      refine ⟨e1 ++ e2, ?_⟩
      simp only [RestyRequest.retry, hre, if_true]
      rw [h2]
      simp only [h1, List.append_assoc]
    · exact ⟨[], by simp [RestyRequest.retry, hre]⟩

theorem exportPost_head (c : Client) (net : Network) (req : Request) (first : HTTPRequest)
    (h : (c.exportPost net req).sent.head? = some first) :
    ∃ u, acceptedURL net (c.baseURL ++ "/export") = some u ∧ first = c.wireRequest req u := by
  cases hurl : acceptedURL net (c.baseURL ++ "/export") with
  | none =>
    have hatt := exportAttempt_rejected c net req hurl
    rw [exportPost_of_not_retryable c net req (by rw [hatt]), hatt] at h
    simp at h
  | some u =>
    refine ⟨u, rfl, ?_⟩
    obtain ⟨e1, h1, _, _, hhead⟩ := attempt_sent
      { client := c.RestClient, Body := some req, Token := c.authToken,
        Result := some { TargetURI := "" } } net (c.baseURL ++ "/export") []
    obtain ⟨e2, h2⟩ := retry_sent
      { client := c.RestClient, Body := some req, Token := c.authToken,
        Result := some { TargetURI := "" } } net (c.baseURL ++ "/export")
      c.RestClient.RetryCount (c.exportAttempt net req)
    have hh := hhead u hurl
    rw [exportPost_eq, h2] at h
    have h1' : (c.exportAttempt net req).sent = e1 := by simpa using h1
    rw [h1'] at h
    cases e1 with
    | nil => simp at hh
    | cons a as =>
      simp only [List.head?_cons, Option.some.injEq] at hh
      simp only [List.cons_append, List.head?_cons, Option.some.injEq] at h
      rw [← h, hh]
      rfl

/-- C7: the body `Export` sends is the JSON object with exactly the eight
members `datasetPath`, `columnSelectors`, `targetContentName`,
`targetContentType`, `targetPassword`, `depseudonymize`, `pseudoRules`,
`pseudoRulesDatasetPath`, each present whatever its value and carrying the
value of its field; a non-nil `columnSelectors` or `pseudoRules` is the array
of its elements in the request's order (a nil slice is `null`), every rule
being an object with exactly the members `name`, `pattern`, `func`; and
`depseudonymize` is `true` for a request with `Depseudonymize = true`
whatever its `PseudoRules`.  Whenever `Export` puts a request on the wire, the
first one carries that body. -/
theorem Export_request_body (c : Client) (net : Network) (req : Request) :
    (∀ first, (c.Export net req).sent.head? = some first →
      first.Body = some (marshalRequest req)) ∧
    (marshalRequest req).keys =
      ["datasetPath", "columnSelectors", "targetContentName", "targetContentType",
        "targetPassword", "depseudonymize", "pseudoRules", "pseudoRulesDatasetPath"] ∧
    (marshalRequest req).get? "datasetPath" = some (Json.str req.DatasetPath) ∧
    (marshalRequest req).get? "columnSelectors" = some (marshalStrings req.ColumnSelectors) ∧
    (marshalRequest req).get? "targetContentName" = some (Json.str req.TargetContentName) ∧
    (marshalRequest req).get? "targetContentType" = some (Json.str req.TargetContentType) ∧
    (marshalRequest req).get? "targetPassword" = some (Json.str req.TargetPassword) ∧
    (marshalRequest req).get? "depseudonymize" = some (Json.bool req.Depseudonymize) ∧
    (marshalRequest req).get? "pseudoRules" = some (marshalPseudoRules req.PseudoRules) ∧
    (marshalRequest req).get? "pseudoRulesDatasetPath"
      = some (Json.str req.PseudoRulesDatasetPath) ∧
    (∀ xs : List String, marshalStrings (some xs) = Json.arr (xs.map Json.str)) ∧
    marshalStrings none = Json.null ∧
    (∀ rs : List PseudoRule, marshalPseudoRules (some rs) =
      Json.arr (rs.map (fun r => Json.obj
        [("name", Json.str r.Name), ("pattern", Json.str r.Pattern), ("func", Json.str r.Func)]))) ∧
    marshalPseudoRules none = Json.null ∧
    (∀ r : PseudoRule, (marshalPseudoRule r).keys = ["name", "pattern", "func"]) ∧
    (∀ rules : Option (List PseudoRule),
      (marshalRequest { req with Depseudonymize := true, PseudoRules := rules }).get?
        "depseudonymize" = some (Json.bool true)) := by
  refine ⟨?_, rfl, rfl, rfl, rfl, rfl, rfl, rfl, rfl, rfl, fun _ => rfl, rfl, fun _ => rfl, rfl,
    fun _ => rfl, fun _ => rfl⟩
  intro first hfirst
  rw [Export_sent] at hfirst
  obtain ⟨u, _, hw⟩ := exportPost_head c net req first hfirst
  rw [hw]
  rfl

theorem Export_request_body_witness :
    ∀ first, ((NewClient "https://pseudo" "tok" false).Export
        (answering { StatusCode := 200, Status := "200 OK", Location := none,
                     Content := ContentKind.json,
                     Body := some (Json.obj [("targetUri", Json.str "gs://b/x")]),
                     XMLBody := none })
        sampleRequest).sent.head? = some first →
      first.Body = some (marshalRequest sampleRequest) :=
  (Export_request_body (NewClient "https://pseudo" "tok" false)
    (answering { StatusCode := 200, Status := "200 OK", Location := none,
                 Content := ContentKind.json,
                 Body := some (Json.obj [("targetUri", Json.str "gs://b/x")]),
                 XMLBody := none })
    sampleRequest).1

/-- C8 as stated fails in both directions.  A base URL that ends in a line
feed cannot be parsed, so `Export` returns the error and no request at all is
issued; and when the backend answers the `POST` with a `307` to another
location, the HTTP layer follows it, so two requests are issued, the second one
to a URL that is not the base URL followed by `/export`. -/
theorem Export_single_post_counterexample :
    (((NewClient "https://pseudo\n" "tok" false).Export
        (answering { StatusCode := 200, Status := "200 OK", Location := none,
                     Content := ContentKind.json,
                     Body := some (Json.obj [("targetUri", Json.str "gs://b/x")]),
                     XMLBody := none })
        sampleRequest).sent = [] ∧
      ((NewClient "https://pseudo\n" "tok" false).Export
        (answering { StatusCode := 200, Status := "200 OK", Location := none,
                     Content := ContentKind.json,
                     Body := some (Json.obj [("targetUri", Json.str "gs://b/x")]),
                     XMLBody := none })
        sampleRequest).err = some (GoError.urlParse "net/url: invalid URL")) ∧
    ((NewClient "https://pseudo" "tok" false).Export
        (answeringThen
          { StatusCode := 307, Status := "307 Temporary Redirect",
            Location := some "https://mirror/export", Content := ContentKind.other,
            Body := none, XMLBody := none }
          { StatusCode := 200, Status := "200 OK", Location := none,
            Content := ContentKind.json,
            Body := some (Json.obj [("targetUri", Json.str "gs://b/x")]), XMLBody := none })
        sampleRequest).sent =
      [ { Method := "POST", URL := "https://pseudo/export", AuthToken := "tok",
          Body := some (marshalRequest sampleRequest) },
        { Method := "POST", URL := "https://mirror/export", AuthToken := "tok",
          Body := some (marshalRequest sampleRequest) } ] := by
  refine ⟨⟨?_, ?_⟩, ?_⟩
  · rfl
  · rfl
  · rfl

theorem exportPost_NewClient_accepted (baseURL token : String) (debug : Bool) (net : Network)
    (req : Request) (u : String) (hurl : acceptedURL net (baseURL ++ "/export") = some u) :
    ((NewClient baseURL token debug).Export net req).sent =
      (httpDo net 10 [] ((NewClient baseURL token debug).wireRequest req u)
        ((NewClient baseURL token debug).wireRequest req u)).2 := by
  rw [Export_sent, exportPost_NewClient,
    exportAttempt_accepted (NewClient baseURL token debug) net req u hurl, finishAttempt_sent]

/-- C8 (amended): on a client built by `NewClient baseURL token debug`, one
call of `Export` makes one call of the HTTP layer, without retries, for a
`POST` to the string `baseURL` followed by `/export` with `token` as bearer
token and the encoded request as body.  When that string cannot be parsed as a
URL (as is every string holding a control character) no request is issued and
`Export` returns the error.  Otherwise the first request issued is that `POST`
to the parsed URL, at least one and at most ten requests are issued, exactly
one when the first round trip fails or is answered with anything but a
redirect (301, 302, 303, 307, 308) whose `Location` can be resolved, and
after such a redirect the second request is the one the redirect asks for. -/
theorem Export_single_post (baseURL token : String) (debug : Bool) (net : Network)
    (req : Request) :
    (acceptedURL net (baseURL ++ "/export") = none →
      ((NewClient baseURL token debug).Export net req).sent = [] ∧
      ((NewClient baseURL token debug).Export net req).response = none ∧
      ((NewClient baseURL token debug).Export net req).err =
        some (GoError.urlParse "net/url: invalid URL")) ∧
    (hasControlByte (baseURL ++ "/export") = true →
      ((NewClient baseURL token debug).Export net req).sent = []) ∧
    (∀ u, acceptedURL net (baseURL ++ "/export") = some u →
      ((NewClient baseURL token debug).Export net req).sent.head? =
        some { Method := "POST", URL := u, AuthToken := token,
               Body := some (marshalRequest req) } ∧
      1 ≤ ((NewClient baseURL token debug).Export net req).sent.length ∧
      ((NewClient baseURL token debug).Export net req).sent.length ≤ 10 ∧
      (∀ e, net.respond [] { Method := "POST", URL := u, AuthToken := token,
                              Body := some (marshalRequest req) } = Outcome.failure e →
        ((NewClient baseURL token debug).Export net req).sent =
          [{ Method := "POST", URL := u, AuthToken := token,
             Body := some (marshalRequest req) }]) ∧
      (∀ raw, net.respond [] { Method := "POST", URL := u, AuthToken := token,
                                Body := some (marshalRequest req) } = Outcome.response raw →
        (isRedirect raw.StatusCode = false ∨ raw.Location = none ∨
          ∃ loc, raw.Location = some loc ∧ net.resolve u loc = none) →
        ((NewClient baseURL token debug).Export net req).sent =
          [{ Method := "POST", URL := u, AuthToken := token,
             Body := some (marshalRequest req) }]) ∧
      (∀ raw loc target,
        net.respond [] { Method := "POST", URL := u, AuthToken := token,
                         Body := some (marshalRequest req) } = Outcome.response raw →
        isRedirect raw.StatusCode = true → raw.Location = some loc →
        net.resolve u loc = some target →
        ((NewClient baseURL token debug).Export net req).sent.take 2 =
          [ { Method := "POST", URL := u, AuthToken := token,
              Body := some (marshalRequest req) },
            { Method := if keepsBody raw.StatusCode then "POST" else "GET",
              URL := target,
              AuthToken := if net.keepsCredentials [u] target then token else "",
              Body := if keepsBody raw.StatusCode then some (marshalRequest req)
                else none } ])) ∧
    (marshalRequest req).keys =
      ["datasetPath", "columnSelectors", "targetContentName", "targetContentType",
        "targetPassword", "depseudonymize", "pseudoRules", "pseudoRulesDatasetPath"] := by
  have hrej : acceptedURL net (baseURL ++ "/export") = none →
      ((NewClient baseURL token debug).Export net req).sent = [] ∧
      ((NewClient baseURL token debug).Export net req).response = none ∧
      ((NewClient baseURL token debug).Export net req).err =
        some (GoError.urlParse "net/url: invalid URL") := by
    intro hurl
    have hatt := exportAttempt_rejected (NewClient baseURL token debug) net req hurl
    have herr : ((NewClient baseURL token debug).exportPost net req).err =
        some (GoError.urlParse "net/url: invalid URL") := by
      rw [exportPost_NewClient, hatt]
    have h := Export_of_post_error _ net req _ herr
    refine ⟨?_, h.1, h.2⟩
    rw [Export_sent, exportPost_NewClient, hatt]
  refine ⟨hrej, ?_, ?_, rfl⟩
  · intro hctl
    exact (hrej (by simp [acceptedURL, hctl])).1
  · intro u hurl
    have hsent := exportPost_NewClient_accepted baseURL token debug net req u hurl
    have hw : (NewClient baseURL token debug).wireRequest req u =
        { Method := "POST", URL := u, AuthToken := token,
          Body := some (marshalRequest req) } := rfl
    rw [hw] at hsent
    obtain ⟨extra, hx, hlen, hhead⟩ := httpDo_trace net 10 []
      { Method := "POST", URL := u, AuthToken := token, Body := some (marshalRequest req) }
      { Method := "POST", URL := u, AuthToken := token, Body := some (marshalRequest req) }
    have hh := hhead (by decide)
    have hx' : ((NewClient baseURL token debug).Export net req).sent = extra := by
      rw [hsent, hx]; rfl
    refine ⟨?_, ?_, ?_, ?_, ?_, ?_⟩
    · rw [hx', hh]
    · rw [hx']
      cases extra with
      | nil => simp at hh
      | cons a as => simp
    · rw [hx']; exact hlen
    · intro e he
      rw [hsent, httpDo_failure net 9 [] _ _ e he]
      rfl
    · intro raw hr hcase
      rw [hsent]
      rcases hcase with hred | hloc | ⟨loc, hloc, hres⟩
      · rw [httpDo_final net 9 [] _ _ raw hr hred]
        rfl
      · rw [httpDo_no_location net 9 [] _ _ raw hr hloc]
        rfl
      · rw [httpDo_unresolved net 9 [] _ _ raw loc hr hloc hres]
        rfl
    · intro raw loc target hr hred hloc hres
      rw [hsent, httpDo_follow net 9 [] _ _ raw loc target hr hred hloc hres]
      obtain ⟨more, hm, _, hmh⟩ := httpDo_trace net 9
        ([] ++ [{ Method := "POST", URL := u, AuthToken := token,
                  Body := some (marshalRequest req) }])
        { Method := "POST", URL := u, AuthToken := token, Body := some (marshalRequest req) }
        (redirectRequest net []
          { Method := "POST", URL := u, AuthToken := token, Body := some (marshalRequest req) }
          { Method := "POST", URL := u, AuthToken := token, Body := some (marshalRequest req) }
          raw.StatusCode target)
      have hmh' := hmh (by decide)
      rw [hm]
      cases more with
      | nil => simp at hmh'
      | cons a as =>
        simp only [List.head?_cons, Option.some.injEq] at hmh'
        rw [hmh']
        simp [redirectRequest]

theorem Export_single_post_witness :
    ((NewClient "https://pseudo" "tok" false).Export
        (answering { StatusCode := 200, Status := "200 OK", Location := none,
                     Content := ContentKind.json,
                     Body := some (Json.obj [("targetUri", Json.str "gs://b/x")]),
                     XMLBody := none })
        sampleRequest).sent =
      [{ Method := "POST", URL := "https://pseudo/export", AuthToken := "tok",
         Body := some (marshalRequest sampleRequest) }] :=
  ((Export_single_post "https://pseudo" "tok" false
    (answering { StatusCode := 200, Status := "200 OK", Location := none,
                 Content := ContentKind.json,
                 Body := some (Json.obj [("targetUri", Json.str "gs://b/x")]),
                 XMLBody := none })
    sampleRequest).2.2.1 "https://pseudo/export" (by decide)).2.2.2.2.1
    { StatusCode := 200, Status := "200 OK", Location := none, Content := ContentKind.json,
      Body := some (Json.obj [("targetUri", Json.str "gs://b/x")]), XMLBody := none }
    rfl (Or.inl (by decide))

theorem finishAttempt_debug (r1 r2 : RestyRequest) (httpReq : HTTPRequest)
    (outcome : Except GoError HTTPResponse × List HTTPRequest) (h : r1.Result = r2.Result) :
    (finishAttempt r1 httpReq outcome).resp = (finishAttempt r2 httpReq outcome).resp ∧
    (finishAttempt r1 httpReq outcome).err = (finishAttempt r2 httpReq outcome).err ∧
    (finishAttempt r1 httpReq outcome).sent = (finishAttempt r2 httpReq outcome).sent := by
  rcases outcome with ⟨o, seen⟩
  cases o with
  | error e => simp [finishAttempt, h]
  | ok raw =>
    simp only [finishAttempt, h]
    cases parseResponseBody raw r2.Result with
    | error e => simp
    | ok res => simp

theorem finishAttempt_log (r : RestyRequest) (httpReq : HTTPRequest)
    (outcome : Except GoError HTTPResponse × List HTTPRequest) :
    (r.client.Debug = false → (finishAttempt r httpReq outcome).log = []) ∧
    (r.client.Debug = true →
      (finishAttempt r httpReq outcome).log.head? = some (WireLog.request httpReq)) := by
  rcases outcome with ⟨o, seen⟩
  cases o with
  | error e =>
    constructor <;> intro hd <;> simp [finishAttempt, hd]
  | ok raw =>
    constructor <;> intro hd <;> simp only [finishAttempt, hd] <;>
      cases parseResponseBody raw r.Result <;> simp

theorem Export_of_post_eq (c1 c2 : Client) (net : Network) (req : Request)
    (hresp : (c1.exportPost net req).resp = (c2.exportPost net req).resp)
    (herr : (c1.exportPost net req).err = (c2.exportPost net req).err) :
    (c1.Export net req).response = (c2.Export net req).response ∧
    (c1.Export net req).err = (c2.Export net req).err := by
  rw [Export_eq, Export_eq, hresp, herr]
  cases (c2.exportPost net req).err with
  | some e => exact ⟨rfl, rfl⟩
  | none =>
    simp only
    split <;> exact ⟨rfl, rfl⟩

/-- C10: the debug flag of `NewClient` changes neither what `Export` returns
nor what it sends: with the flag on and off the returned `Response`, the
returned error and the requests put on the wire are the same, for every
network and backend; only the wire dump differs: it is empty with the flag off,
and with the flag on it starts with the request whenever the URL can be parsed
(and is empty when it cannot, as nothing is sent). -/
theorem Export_debug_independent (baseURL token : String) (net : Network) (req : Request) :
    ((NewClient baseURL token true).Export net req).response =
      ((NewClient baseURL token false).Export net req).response ∧
    ((NewClient baseURL token true).Export net req).err =
      ((NewClient baseURL token false).Export net req).err ∧
    ((NewClient baseURL token true).Export net req).sent =
      ((NewClient baseURL token false).Export net req).sent ∧
    ((NewClient baseURL token false).Export net req).log = [] ∧
    (∀ u, acceptedURL net (baseURL ++ "/export") = some u →
      ((NewClient baseURL token true).Export net req).log.head? =
        some (WireLog.request ((NewClient baseURL token true).wireRequest req u))) ∧
    (acceptedURL net (baseURL ++ "/export") = none →
      ((NewClient baseURL token true).Export net req).log = []) := by
  have hp1 := exportPost_NewClient baseURL token true net req
  have hp2 := exportPost_NewClient baseURL token false net req
  have hw : ∀ u, (NewClient baseURL token true).wireRequest req u =
      (NewClient baseURL token false).wireRequest req u := fun _ => rfl
  cases hurl : acceptedURL net (baseURL ++ "/export") with
  | none =>
    have h1 := exportAttempt_rejected (NewClient baseURL token true) net req hurl
    have h2 := exportAttempt_rejected (NewClient baseURL token false) net req hurl
    have hE := Export_of_post_eq (NewClient baseURL token true) (NewClient baseURL token false)
      net req (by rw [hp1, hp2, h1, h2]) (by rw [hp1, hp2, h1, h2])
    refine ⟨hE.1, hE.2, ?_, ?_, (fun u hu => nomatch hu), ?_⟩
    · rw [Export_sent, Export_sent, hp1, hp2, h1, h2]
    · rw [Export_log, hp2, h2]
    · intro _
      rw [Export_log, hp1, h1]
  | some u =>
    have h1 := exportAttempt_accepted (NewClient baseURL token true) net req u hurl
    have h2 := exportAttempt_accepted (NewClient baseURL token false) net req u hurl
    rw [hw u] at h1
    have hfin := finishAttempt_debug
      { client := (NewClient baseURL token true).RestClient, Body := some req,
        Token := (NewClient baseURL token true).authToken,
        Result := some { TargetURI := "" } }
      { client := (NewClient baseURL token false).RestClient, Body := some req,
        Token := (NewClient baseURL token false).authToken,
        Result := some { TargetURI := "" } }
      ((NewClient baseURL token false).wireRequest req u)
      (httpDo net 10 [] ((NewClient baseURL token false).wireRequest req u)
        ((NewClient baseURL token false).wireRequest req u)) rfl
    rw [← h1, ← h2] at hfin
    have hE := Export_of_post_eq (NewClient baseURL token true) (NewClient baseURL token false)
      net req (by rw [hp1, hp2]; exact hfin.1) (by rw [hp1, hp2]; exact hfin.2.1)
    refine ⟨hE.1, hE.2, ?_, ?_, ?_, (fun hn => nomatch hn)⟩
    · rw [Export_sent, Export_sent, hp1, hp2]
      exact hfin.2.2
    · rw [Export_log, hp2, h2]
      exact (finishAttempt_log _ _ _).1 rfl
    · intro u' hu'
      cases hu'
      rw [Export_log, hp1, h1, hw u]
      exact (finishAttempt_log _ _ _).2 rfl

theorem Export_debug_independent_witness :
    ((NewClient "https://pseudo" "tok" true).Export
        (answering { StatusCode := 200, Status := "200 OK", Location := none,
                     Content := ContentKind.json,
                     Body := some (Json.obj [("targetUri", Json.str "gs://b/x")]),
                     XMLBody := none })
        sampleRequest).log.head? =
      some (WireLog.request
        ((NewClient "https://pseudo" "tok" true).wireRequest sampleRequest
          "https://pseudo/export")) :=
  (Export_debug_independent "https://pseudo" "tok"
    (answering { StatusCode := 200, Status := "200 OK", Location := none,
                 Content := ContentKind.json,
                 Body := some (Json.obj [("targetUri", Json.str "gs://b/x")]),
                 XMLBody := none })
    sampleRequest).2.2.2.2.1 "https://pseudo/export" (by decide)

theorem Export_xml_example :
    ((NewClient "https://pseudo" "tok" false).Export
        (answering { StatusCode := 200, Status := "200 OK", Location := none,
                     Content := ContentKind.xml, Body := none,
                     XMLBody := some (XmlNode.element "r"
                       [XmlNode.element "TargetURI" [XmlNode.text "gs://b/x"]]) })
        sampleRequest).response = some { TargetURI := "gs://b/x" } ∧
    ((NewClient "https://pseudo" "tok" false).Export
        (answering { StatusCode := 200, Status := "200 OK", Location := none,
                     Content := ContentKind.xml,
                     Body := some (Json.obj [("targetUri", Json.str "gs://b/x")]),
                     XMLBody := none })
        sampleRequest).err ≠ none := by
  constructor <;> decide

end Export

namespace Cmd

open Maintenance

/-! ## Properties of the delete-result report -/

theorem fixedDigits_length (w n : Nat) : (fixedDigits w n).length = w := by
  induction w generalizing n with
  | zero => rfl
  | succ w ih => simp [fixedDigits, ih]

theorem digitChar_isDigit (n : Nat) : (digitChar n).isDigit = true := by
  unfold digitChar
  have h : n % 10 < 10 := Nat.mod_lt _ (by decide)
  generalize n % 10 = k at h
  interval_cases k <;> decide

theorem digitChar_toNat (n : Nat) : (digitChar n).toNat - 48 = n % 10 := by
  unfold digitChar
  have h : n % 10 < 10 := Nat.mod_lt _ (by decide)
  generalize n % 10 = k at h
  interval_cases k <;> decide

theorem fixedDigits_isDigit (w n : Nat) : ∀ c ∈ fixedDigits w n, c.isDigit = true := by
  induction w generalizing n with
  | zero => intro c hc; simp [fixedDigits] at hc
  | succ w ih =>
    intro c hc
    simp only [fixedDigits, List.mem_append, List.mem_singleton] at hc
    rcases hc with hc | hc
    · exact ih _ c hc
    · rw [hc]; exact digitChar_isDigit n

theorem digitsValue_fixedDigits (w n : Nat) : digitsValue (fixedDigits w n) = n % 10 ^ w := by
  induction w generalizing n with
  | zero => simp [fixedDigits, digitsValue, Nat.mod_one]
  | succ w ih =>
    have h := ih (n / 10)
    unfold digitsValue at h ⊢
    simp only [fixedDigits, List.foldl_append, List.foldl_cons, List.foldl_nil, h,
      digitChar_toNat]
    rw [pow_succ, Nat.mul_comm (10 ^ w) 10, Nat.mod_mul]
    omega

theorem joinLines_cons (l : String) (ls : List String) (h : ls ≠ []) :
    joinLines (l :: ls) = l ++ "\n" ++ joinLines ls := by
  cases ls with
  | nil => exact absurd rfl h
  | cons a as => rfl

theorem joinLines_append_singleton_terminated (ls : List String) (x : String) :
    joinLines (ls ++ [x]) = terminatedLines ls ++ x := by
  induction ls with
  | nil => simp [joinLines, terminatedLines]
  | cons a as ih =>
    rw [List.cons_append, joinLines_cons _ _ (by simp), ih]
    simp [terminatedLines, String.append_assoc]

theorem terminatedLines_append (as bs : List String) :
    terminatedLines (as ++ bs) = terminatedLines as ++ terminatedLines bs := by
  induction as with
  | nil => simp [terminatedLines]
  | cons a as ih => simp [terminatedLines, ih, String.append_assoc]

theorem joinLines_append_singleton (ls : List String) (x : String) (h : ls ≠ []) :
    joinLines (ls ++ [x]) = joinLines ls ++ "\n" ++ x := by
  rcases List.eq_nil_or_concat ls with h0 | ⟨init, y, rfl⟩
  · exact absurd h0 h
  · rw [List.concat_eq_append, joinLines_append_singleton_terminated,
      joinLines_append_singleton_terminated, terminatedLines_append]
    simp [terminatedLines, String.append_assoc]

theorem isFileLine_tab (s : String) : isFileLine ("\t" ++ s) = true := by
  simp [isFileLine, String.data_append]


theorem civilFromDays_month_day (days : Int) :
    1 ≤ (civilFromDays days).2.1 ∧ (civilFromDays days).2.1 ≤ 12 ∧
    1 ≤ (civilFromDays days).2.2 ∧ (civilFromDays days).2.2 ≤ 31 := by
  unfold civilFromDays
  simp only
  have hdoe : ((days + 719468) % 146097).toNat < 146097 := by omega
  generalize ((days + 719468) % 146097).toNat = doe at hdoe
  split <;> omega

theorem filter_isFileLine_versionLines (v : DatasetVersion) :
    (versionLines v).filter isFileLine = v.DeletedFiles.map (fun f => "\t" ++ f.URI) := by
  have hhead : isFileLine ("Version: " ++ formatTimestamp v.Timestamp) = false := by
    simp [isFileLine, String.data_append]
  unfold versionLines
  rw [List.filter_cons_of_neg (by simp [hhead])]
  apply List.filter_eq_self.mpr
  intro l hl
  rcases List.mem_map.mp hl with ⟨f, _, rfl⟩
  exact isFileLine_tab _

theorem filter_isFileLine_flatMap (vs : List DatasetVersion) :
    (vs.flatMap versionLines).filter isFileLine =
      vs.flatMap (fun v => v.DeletedFiles.map (fun f => "\t" ++ f.URI)) := by
  induction vs with
  | nil => rfl
  | cons v vs ih =>
    simp only [List.flatMap_cons, List.filter_append, ih, filter_isFileLine_versionLines]

theorem length_flatMap_files (vs : List DatasetVersion) :
    (vs.flatMap (fun v => v.DeletedFiles.map (fun f => "\t" ++ f.URI))).length =
      (vs.map (fun v => v.DeletedFiles.length)).sum := by
  induction vs with
  | nil => rfl
  | cons v vs ih => simp [List.flatMap_cons, ih]

theorem reportLines_debug (res : DeleteDatasetResponse) :
    reportLines res false true =
      res.DatasetVersion.flatMap versionLines ++
        ["", "number of deleted files: " ++ toString (deletedFileCount res),
          "total size of deleted files: " ++ toString res.TotalSize, summaryLine res] := by
  simp [reportLines, debugLines]

theorem filter_isFileLine_reportLines (res : DeleteDatasetResponse) :
    (reportLines res false true).filter isFileLine =
      res.DatasetVersion.flatMap (fun v => v.DeletedFiles.map (fun f => "\t" ++ f.URI)) := by
  rw [reportLines_debug, List.filter_append, filter_isFileLine_flatMap]
  have h : List.filter isFileLine
      ["", "number of deleted files: " ++ toString (deletedFileCount res),
        "total size of deleted files: " ++ toString res.TotalSize, summaryLine res] = [] := by
    simp [isFileLine, summaryLine, String.data_append]
  rw [h, List.append_nil]

theorem versionLines_mapSizes (g : Nat → Nat) (v : DatasetVersion) :
    versionLines { v with DeletedFiles := v.DeletedFiles.map (fun f => { f with Size := g f.Size }) }
      = versionLines v := by
  simp [versionLines, List.map_map, Function.comp_def]

theorem reportLines_mapSizes (g : Nat → Nat) (res : DeleteDatasetResponse) (dryRun debug : Bool) :
    reportLines (mapSizes g res) dryRun debug = reportLines res dryRun debug := by
  have h1 : (mapSizes g res).DatasetVersion.flatMap versionLines =
      res.DatasetVersion.flatMap versionLines := by
    simp only [mapSizes, List.flatMap_map]
    congr 1
    funext v
    exact versionLines_mapSizes g v
  have h2 : deletedFileCount (mapSizes g res) = deletedFileCount res := by
    simp [deletedFileCount, mapSizes, List.map_map, Function.comp_def]
  have h3 : summaryLine (mapSizes g res) = summaryLine res := by
    simp [summaryLine, mapSizes]
  have h4 : (mapSizes g res).TotalSize = res.TotalSize := rfl
  simp only [reportLines, debugLines, h1, h2, h3, h4]

set_option maxRecDepth 100000 in
theorem testResponse_debug_text :
    printDeleteResponse testResponse false true =
      "Version: 2000-01-01 00:00:00.123456 +0000 UTC\n" ++
      "\tgs://bucket/prefix/foo/bar/v1/file1\n" ++
      "\tgs://bucket/prefix/foo/bar/v1/file2\n" ++
      "Version: 3000-01-01 00:00:00.123456 +0000 UTC\n" ++
      "\tgs://bucket/prefix/foo/bar/v2/file1\n" ++
      "\tgs://bucket/prefix/foo/bar/v2/file2\n\n" ++
      "number of deleted files: 4\n" ++
      "total size of deleted files: 15\n" ++
      "Dataset /foo/bar (2 versions) successfully deleted" := by
  decide

theorem civilFromDays_known_dates :
    civilFromDays 0 = (1970, 1, 1) ∧ civilFromDays (-1) = (1969, 12, 31) ∧
    civilFromDays 10957 = (2000, 1, 1) ∧ civilFromDays 11016 = (2000, 2, 29) ∧
    civilFromDays 11017 = (2000, 3, 1) ∧ civilFromDays (-25509) = (1900, 2, 28) ∧
    civilFromDays (-25508) = (1900, 3, 1) ∧ civilFromDays 376200 = (3000, 1, 1) ∧
    civilFromDays (-719528) = (0, 1, 1) ∧ civilFromDays 2932896 = (9999, 12, 31) ∧
    civilFromDays 19782 = (2024, 2, 29) := by
  decide

theorem yoe_le (doe : Nat) (h : doe < 146097) :
    (doe - doe / 1460 + doe / 36524 - doe / 146096) / 365 ≤ 399 := by
  omega

theorem civil_year_range (era : Int) (doe : Nat) (hdoe : doe < 146097)
    (hlo : -60 ≤ 146097 * era + doe) (hhi : 146097 * era + doe ≤ 3652364) :
    let yoe := (doe - doe / 1460 + doe / 36524 - doe / 146096) / 365
    let doy := doe - (365 * yoe + yoe / 4 - yoe / 100)
    let mp := (5 * doy + 2) / 153
    let m := if mp < 10 then mp + 3 else mp - 9
    0 ≤ (if m ≤ 2 then (yoe : Int) + era * 400 + 1 else (yoe : Int) + era * 400) ∧
    (if m ≤ 2 then (yoe : Int) + era * 400 + 1 else (yoe : Int) + era * 400) ≤ 9999 := by
  intro yoe doy mp m
  have hera : -1 ≤ era ∧ era ≤ 24 := by omega
  have hyoe : yoe ≤ 399 := yoe_le doe hdoe
  by_cases h1 : era = -1
  · have hd : 146037 ≤ doe := by omega
    have a1 : doe / 1460 = 100 := by omega
    have a2 : doe / 36524 - doe / 146096 = 3 := by omega
    have hy : yoe = 399 := by
      show (doe - doe / 1460 + doe / 36524 - doe / 146096) / 365 = 399
      omega
    have hdoy : doy = doe - 145731 := by
      show doe - (365 * yoe + yoe / 4 - yoe / 100) = _
      rw [hy]
    have hmp : 10 ≤ mp := by
      show 10 ≤ (5 * doy + 2) / 153
      omega
    have hm : m ≤ 2 := by
      show (if mp < 10 then mp + 3 else mp - 9) ≤ 2
      have : mp ≤ 11 := by
        show (5 * doy + 2) / 153 ≤ 11
        omega
      split <;> omega
    simp only [hm, if_true]
    omega
  · by_cases h2 : era = 24
    · have hd : doe ≤ 146036 := by omega
      by_cases h3 : yoe = 399
      · have hdoy : doy ≤ 305 := by
          show doe - (365 * yoe + yoe / 4 - yoe / 100) ≤ 305
          rw [h3]; omega
        have hmp : mp ≤ 9 := by
          show (5 * doy + 2) / 153 ≤ 9
          omega
        have hm : ¬ m ≤ 2 := by
          show ¬ (if mp < 10 then mp + 3 else mp - 9) ≤ 2
          split <;> omega
        simp only [hm, if_false]
        omega
      · split <;> omega
    · split <;> omega

theorem civilFromDays_year (sec : Int) (hlo : -62167219200 ≤ sec) (hhi : sec < 253402300800) :
    0 ≤ (civilFromDays (sec / 86400)).1 ∧ (civilFromDays (sec / 86400)).1 ≤ 9999 := by
  have h1 : -719528 ≤ sec / 86400 := by omega
  have h2 : sec / 86400 < 2932897 := by omega
  generalize sec / 86400 = days at h1 h2
  have hz : days + 719468 =
      146097 * ((days + 719468) / 146097) + (((days + 719468) % 146097).toNat : Int) := by
    omega
  have hdoe : ((days + 719468) % 146097).toNat < 146097 := by omega
  exact civil_year_range ((days + 719468) / 146097) ((days + 719468) % 146097).toNat hdoe
    (by omega) (by omega)

theorem yearText_of_range (y : Int) (h0 : 0 ≤ y) (h1 : y ≤ 9999) :
    yearText y = String.mk (fixedDigits 4 y.toNat) := by
  unfold yearText
  have h2 : ¬ y < 0 := by omega
  have h3 : y.toNat < 10000 := by omega
  simp [h2, h3]

theorem digitsValue_fixedDigits_of_lt (w n : Nat) (h : n < 10 ^ w) :
    digitsValue (fixedDigits w n) = n := by
  rw [digitsValue_fixedDigits, Nat.mod_eq_of_lt h]

/-- C9: every timestamp renders as `YYYY-MM-DD HH:MM:SS.ffffff +0000 UTC`:
two-digit month, day, hour, minute and second of the instant in UTC, exactly
six fractional digits denoting the microseconds of the second (zero-padded,
sub-microsecond digits dropped), and a four-digit year for an instant within
the years 0000 to 9999; the zone the value is expressed in does not change the
text; the rendering is what the `Version:` header of the debug block carries;
2000-01-01T00:00:00.123456Z renders as
`2000-01-01 00:00:00.123456 +0000 UTC` and the exact second as
`2000-01-01 00:00:00.000000 +0000 UTC`. -/
theorem formatTimestamp_six_digits (t : Time) :
    (∃ Y M D h m s f : List Char,
      formatTimestamp t = String.mk (Y ++ '-' :: M ++ '-' :: D ++ ' ' :: h ++ ':' :: m ++
        ':' :: s ++ '.' :: f ++ " +0000 UTC".data) ∧
      M.length = 2 ∧ D.length = 2 ∧ h.length = 2 ∧ m.length = 2 ∧ s.length = 2 ∧
      f.length = 6 ∧
      (∀ c ∈ M ++ D ++ h ++ m ++ s ++ f, c.isDigit = true) ∧
      digitsValue f = t.nsec / 1000 % 1000000 ∧
      digitsValue M = (civilFromDays (t.sec / 86400)).2.1 ∧
      digitsValue D = (civilFromDays (t.sec / 86400)).2.2 ∧
      digitsValue h = (t.sec % 86400).toNat / 3600 ∧
      digitsValue m = (t.sec % 86400).toNat / 60 % 60 ∧
      digitsValue s = (t.sec % 86400).toNat % 60 ∧
      (-62167219200 ≤ t.sec → t.sec < 253402300800 →
        Y.length = 4 ∧ (∀ c ∈ Y, c.isDigit = true) ∧
          (digitsValue Y : Int) = (civilFromDays (t.sec / 86400)).1)) ∧
    (∀ z : Int, formatTimestamp { t with zoneOffset := z } = formatTimestamp t) ∧
    (∀ (path : String) (total : Int) (before after : List DatasetVersion)
        (files : List DatasetFile) (dryRun : Bool),
      ("Version: " ++ formatTimestamp t) ∈
        reportLines { DatasetPath := path, TotalSize := total,
                      DatasetVersion := before ++ { Timestamp := t, DeletedFiles := files } :: after }
          dryRun true) ∧
    formatTimestamp { sec := 946684800, nsec := 123456000, zoneOffset := 0 } =
      "2000-01-01 00:00:00.123456 +0000 UTC" ∧
    formatTimestamp { sec := 946684800, nsec := 0, zoneOffset := 0 } =
      "2000-01-01 00:00:00.000000 +0000 UTC" ∧
    formatTimestamp { sec := 946684800, nsec := 0, zoneOffset := 3600 } =
      "2000-01-01 00:00:00.000000 +0000 UTC" := by
  refine ⟨?_, fun _ => rfl, ?_, by decide, by decide, by decide⟩
  · have hmd := civilFromDays_month_day (t.sec / 86400)
    have hclock : (t.sec % 86400).toNat / 3600 < 24 ∧ (t.sec % 86400).toNat / 60 % 60 < 60 ∧
        (t.sec % 86400).toNat % 60 < 60 := by omega
    refine ⟨(yearText (civilFromDays (t.sec / 86400)).1).data,
      fixedDigits 2 (civilFromDays (t.sec / 86400)).2.1,
      fixedDigits 2 (civilFromDays (t.sec / 86400)).2.2,
      fixedDigits 2 ((t.sec % 86400).toNat / 3600),
      fixedDigits 2 ((t.sec % 86400).toNat / 60 % 60),
      fixedDigits 2 ((t.sec % 86400).toNat % 60),
      fixedDigits 6 (t.nsec / 1000), ?_, fixedDigits_length _ _, fixedDigits_length _ _,
      fixedDigits_length _ _, fixedDigits_length _ _, fixedDigits_length _ _,
      fixedDigits_length _ _, ?_, ?_, ?_, ?_, ?_, ?_, ?_, ?_⟩
    · apply String.ext
      simp [formatTimestamp, dateText, clockText, fractionText, String.data_append]
    · intro c hc
      simp only [List.mem_append] at hc
      rcases hc with ((((hc | hc) | hc) | hc) | hc) | hc <;> exact fixedDigits_isDigit _ _ c hc
    · exact digitsValue_fixedDigits 6 _
    · exact digitsValue_fixedDigits_of_lt 2 _ (by omega)
    · exact digitsValue_fixedDigits_of_lt 2 _ (by omega)
    · exact digitsValue_fixedDigits_of_lt 2 _ (by omega)
    · exact digitsValue_fixedDigits_of_lt 2 _ (by omega)
    · exact digitsValue_fixedDigits_of_lt 2 _ (by omega)
    · intro hlo hhi
      have hy := civilFromDays_year t.sec hlo hhi
      rw [yearText_of_range _ hy.1 hy.2]
      refine ⟨fixedDigits_length _ _, fixedDigits_isDigit _ _, ?_⟩
      rw [digitsValue_fixedDigits_of_lt 4 _ (by omega)]
      omega
  · intro path total before after files dryRun
    simp [reportLines, debugLines, versionLines]

theorem formatTimestamp_six_digits_witness :
    ∃ Y M D h m s f : List Char,
      formatTimestamp { sec := 946684800, nsec := 123456000, zoneOffset := 0 } =
        String.mk (Y ++ '-' :: M ++ '-' :: D ++ ' ' :: h ++ ':' :: m ++
          ':' :: s ++ '.' :: f ++ " +0000 UTC".data) ∧
      f.length = 6 ∧ Y.length = 4 := by
  obtain ⟨Y, M, D, h, m, s, f, heq, _, _, _, _, _, hf, _, _, _, _, _, _, _, hY⟩ :=
    (formatTimestamp_six_digits { sec := 946684800, nsec := 123456000, zoneOffset := 0 }).1
  exact ⟨Y, M, D, h, m, s, f, heq, hf, (hY (by decide) (by decide)).1⟩

theorem versionLines_head (v : DatasetVersion) :
    ∀ l ∈ versionLines v, l.data.head? ≠ some '\r' ∧ l.data.head? ≠ some 'T' := by
  intro l hl
  simp only [versionLines, List.mem_cons, List.mem_map] at hl
  rcases hl with rfl | ⟨f, _, rfl⟩ <;> simp [String.data_append]

theorem debugLines_head (res : DeleteDatasetResponse) :
    ∀ l ∈ debugLines res, l.data.head? ≠ some '\r' ∧ l.data.head? ≠ some 'T' := by
  intro l hl
  simp only [debugLines, List.mem_append, List.mem_flatMap, List.mem_cons, List.mem_singleton,
    List.not_mem_nil, or_false] at hl
  rcases hl with ⟨v, _, hv⟩ | rfl | rfl | rfl
  · exact versionLines_head v l hv
  all_goals simp [String.data_append]

theorem reportLines_false_head (res : DeleteDatasetResponse) (debug : Bool) :
    ∀ l ∈ reportLines res false debug, l.data.head? ≠ some '\r' ∧ l.data.head? ≠ some 'T' := by
  intro l hl
  simp only [reportLines, List.mem_append, List.mem_singleton, Bool.false_eq_true, if_false,
    List.not_mem_nil, or_false] at hl
  rcases hl with hl | rfl
  · cases debug with
    | false => simp at hl
    | true => exact debugLines_head res l (by simpa using hl)
  · simp [summaryLine, String.data_append]

theorem reportLines_ne_nil (res : DeleteDatasetResponse) (dryRun debug : Bool) :
    reportLines res dryRun debug ≠ [] := by
  cases dryRun <;> simp [reportLines]

theorem splitLines_of_not_mem (l : List Char) (h : '\n' ∉ l) : splitLines l = [l] := by
  induction l with
  | nil => rfl
  | cons c cs ih =>
    have hc : c ≠ '\n' := fun e => h (by simp [e])
    have hcs : '\n' ∉ cs := fun e => h (by simp [e])
    simp [splitLines, hc, ih hcs]

theorem splitLines_append (l rest : List Char) (h : '\n' ∉ l) :
    splitLines (l ++ '\n' :: rest) = l :: splitLines rest := by
  induction l with
  | nil => simp [splitLines]
  | cons c cs ih =>
    have hc : c ≠ '\n' := fun e => h (by simp [e])
    have hcs : '\n' ∉ cs := fun e => h (by simp [e])
    simp [splitLines, hc, ih hcs]

theorem textLines_joinLines (ls : List String) (hne : ls ≠ [])
    (h : ∀ l ∈ ls, '\n' ∉ l.data) : textLines (joinLines ls) = ls := by
  induction ls with
  | nil => exact absurd rfl hne
  | cons a as ih =>
    cases as with
    | nil =>
      simp [joinLines, textLines, splitLines_of_not_mem _ (h a (by simp))]
    | cons b bs =>
      have hrec := ih (by simp) (fun l hl => h l (by simp [hl]))
      have ha := h a (by simp)
      have hj : joinLines (a :: b :: bs) = a ++ "\n" ++ joinLines (b :: bs) := rfl
      unfold textLines at hrec ⊢
      rw [hj]
      have hd : (a ++ "\n" ++ joinLines (b :: bs)).data =
          a.data ++ '\n' :: (joinLines (b :: bs)).data := by
        simp [String.data_append]
      rw [hd, splitLines_append _ _ ha, List.map_cons, hrec]

theorem natDigitChar_isDigit (k : Nat) (h : k < 10) : (Nat.digitChar k).isDigit = true := by
  interval_cases k <;> decide

theorem toDigitsCore_isDigit (fuel n : Nat) (ds : List Char)
    (h : ∀ c ∈ ds, c.isDigit = true) :
    ∀ c ∈ Nat.toDigitsCore 10 fuel n ds, c.isDigit = true := by
  induction fuel generalizing n ds with
  | zero => simpa [Nat.toDigitsCore] using h
  | succ fuel ih =>
    have hd : (Nat.digitChar (n % 10)).isDigit = true :=
      natDigitChar_isDigit _ (Nat.mod_lt _ (by decide))
    have hds : ∀ c ∈ Nat.digitChar (n % 10) :: ds, c.isDigit = true := by
      intro c hc
      rcases List.mem_cons.mp hc with rfl | hc
      · exact hd
      · exact h c hc
    unfold Nat.toDigitsCore
    simp only
    split
    · exact hds
    · exact ih _ _ hds

theorem natText_isDigit (n : Nat) : ∀ c ∈ (toString n).data, c.isDigit = true := by
  show ∀ c ∈ (Nat.repr n).data, c.isDigit = true
  unfold Nat.repr Nat.toDigits
  simp only [List.asString]
  exact toDigitsCore_isDigit _ _ [] (by simp)

theorem natText_no_newline (n : Nat) : '\n' ∉ (toString n).data := by
  intro h
  have := natText_isDigit n _ h
  exact absurd this (by decide)

theorem intText_no_newline (i : Int) : '\n' ∉ (toString i).data := by
  cases i with
  | ofNat m => exact natText_no_newline m
  | negSucc m =>
    show '\n' ∉ ("-" ++ Nat.repr (m + 1)).data
    rw [String.data_append]
    intro h
    rcases List.mem_append.mp h with h | h
    · simp at h
    · exact natText_no_newline (m + 1) h

theorem not_mem_data_append (a b : String) (ha : '\n' ∉ a.data) (hb : '\n' ∉ b.data) :
    '\n' ∉ (a ++ b).data := by
  rw [String.data_append]
  intro h
  rcases List.mem_append.mp h with h | h
  · exact ha h
  · exact hb h

theorem fixedDigits_no_newline (w n : Nat) : '\n' ∉ (String.mk (fixedDigits w n)).data := by
  intro h
  exact absurd (fixedDigits_isDigit w n _ h) (by decide)

theorem yearText_no_newline (y : Int) : '\n' ∉ (yearText y).data := by
  unfold yearText
  split
  · apply not_mem_data_append _ _ (by decide)
    split
    · exact fixedDigits_no_newline _ _
    · exact natText_no_newline _
  · split
    · exact fixedDigits_no_newline _ _
    · exact natText_no_newline _

theorem dateText_no_newline (t : Time) : '\n' ∉ (dateText t).data :=
  not_mem_data_append _ _
    (not_mem_data_append _ _
      (not_mem_data_append _ _
        (not_mem_data_append _ _ (yearText_no_newline _) (by decide))
        (fixedDigits_no_newline _ _))
      (by decide))
    (fixedDigits_no_newline _ _)

theorem clockText_no_newline (t : Time) : '\n' ∉ (clockText t).data :=
  not_mem_data_append _ _
    (not_mem_data_append _ _
      (not_mem_data_append _ _
        (not_mem_data_append _ _ (fixedDigits_no_newline _ _) (by decide))
        (fixedDigits_no_newline _ _))
      (by decide))
    (fixedDigits_no_newline _ _)

theorem formatTimestamp_no_newline (t : Time) : '\n' ∉ (formatTimestamp t).data :=
  not_mem_data_append _ _
    (not_mem_data_append _ _
      (not_mem_data_append _ _
        (not_mem_data_append _ _
          (not_mem_data_append _ _ (dateText_no_newline t) (by decide))
          (clockText_no_newline t))
        (by decide))
      (fixedDigits_no_newline _ _))
    (by decide)

theorem summaryLine_no_newline (res : DeleteDatasetResponse)
    (hpath : '\n' ∉ res.DatasetPath.data) : '\n' ∉ (summaryLine res).data :=
  not_mem_data_append _ _
    (not_mem_data_append _ _
      (not_mem_data_append _ _
        (not_mem_data_append _ _ (by decide) hpath)
        (by decide))
      (natText_no_newline _))
    (by decide)

theorem reportLines_no_newline (res : DeleteDatasetResponse) (dryRun debug : Bool)
    (hpath : '\n' ∉ res.DatasetPath.data)
    (huri : ∀ v ∈ res.DatasetVersion, ∀ f ∈ v.DeletedFiles, '\n' ∉ f.URI.data) :
    ∀ l ∈ reportLines res dryRun debug, '\n' ∉ l.data := by
  have hsummary : '\n' ∉ (summaryLine res).data := summaryLine_no_newline res hpath
  have hdebug : ∀ l ∈ debugLines res, '\n' ∉ l.data := by
    intro l hl
    simp only [debugLines, List.mem_append, List.mem_flatMap, List.mem_cons, List.mem_singleton,
      List.not_mem_nil, or_false, versionLines, List.mem_map] at hl
    rcases hl with ⟨v, hv, rfl | ⟨f, hf, rfl⟩⟩ | rfl | rfl | rfl
    · exact not_mem_data_append _ _ (by decide) (formatTimestamp_no_newline _)
    · exact not_mem_data_append _ _ (by decide) (huri v hv f hf)
    · decide
    · exact not_mem_data_append _ _ (by decide) (natText_no_newline _)
    · exact not_mem_data_append _ _ (by decide) (intText_no_newline _)
  intro l hl
  simp only [reportLines, List.mem_append, List.mem_singleton] at hl
  rcases hl with (hl | rfl) | hl
  · cases debug with
    | false => simp at hl
    | true => exact hdebug l (by simpa using hl)
  · exact hsummary
  · cases dryRun with
    | false => simp at hl
    | true =>
      have : l = "\r" ++ dryRunNotice := by simpa using hl
      rw [this]
      decide

theorem textLines_printDeleteResponse (res : DeleteDatasetResponse) (dryRun debug : Bool)
    (hpath : '\n' ∉ res.DatasetPath.data)
    (huri : ∀ v ∈ res.DatasetVersion, ∀ f ∈ v.DeletedFiles, '\n' ∉ f.URI.data) :
    textLines (printDeleteResponse res dryRun debug) = reportLines res dryRun debug :=
  textLines_joinLines _ (reportLines_ne_nil res dryRun debug)
    (reportLines_no_newline res dryRun debug hpath huri)

/-- C5: with debug off and dry-run off the text written is exactly the single
line `Dataset p (k versions) successfully deleted`, with `p` the dataset path
and `k` the length of the versions sequence; it is the only line written, so
no version header, file line, file count or total size is part of it, and it
is the only line of the text when the path holds no line feed; the delete
result of the test yields the text the test expects. -/
theorem printDeleteResponse_plain (res : DeleteDatasetResponse) :
    printDeleteResponse res false false =
      "Dataset " ++ res.DatasetPath ++ " (" ++ toString res.DatasetVersion.length ++
        " versions) successfully deleted" ∧
    reportLines res false false =
      ["Dataset " ++ res.DatasetPath ++ " (" ++ toString res.DatasetVersion.length ++
        " versions) successfully deleted"] ∧
    (reportLines res false false).filter isFileLine = [] ∧
    ('\n' ∉ res.DatasetPath.data →
      textLines (printDeleteResponse res false false) =
        ["Dataset " ++ res.DatasetPath ++ " (" ++ toString res.DatasetVersion.length ++
          " versions) successfully deleted"]) ∧
    printDeleteResponse testResponse false false =
      "Dataset /foo/bar (2 versions) successfully deleted" := by
  refine ⟨rfl, rfl, ?_, ?_, by decide⟩
  · simp [reportLines, isFileLine, summaryLine, String.data_append]
  · intro hpath
    refine textLines_joinLines _ (reportLines_ne_nil res false false) ?_
    intro l hl
    have hl2 : l = summaryLine res := by simpa [reportLines] using hl
    rw [hl2]
    exact summaryLine_no_newline res hpath

theorem printDeleteResponse_plain_witness :
    textLines (printDeleteResponse testResponse false false) =
      ["Dataset /foo/bar (2 versions) successfully deleted"] :=
  (printDeleteResponse_plain testResponse).2.2.2.1 (by decide)

set_option maxRecDepth 100000 in
theorem testResponse_dryRun_texts :
    printDeleteResponse testResponse true false =
      "Dataset /foo/bar (2 versions) successfully deleted\n\r" ++
      "The dry-run flag was set. NO FILES WERE DELETED." ∧
    printDeleteResponse testResponse true true =
      "Version: 2000-01-01 00:00:00.123456 +0000 UTC\n" ++
      "\tgs://bucket/prefix/foo/bar/v1/file1\n" ++
      "\tgs://bucket/prefix/foo/bar/v1/file2\n" ++
      "Version: 3000-01-01 00:00:00.123456 +0000 UTC\n" ++
      "\tgs://bucket/prefix/foo/bar/v2/file1\n" ++
      "\tgs://bucket/prefix/foo/bar/v2/file2\n\n" ++
      "number of deleted files: 4\n" ++
      "total size of deleted files: 15\n" ++
      "Dataset /foo/bar (2 versions) successfully deleted\n\r" ++
      "The dry-run flag was set. NO FILES WERE DELETED." := by
  constructor <;> decide

/-- C6: the two flags compose independently.  For every delete result and
both values of debug, the text with dry-run on is the text with dry-run off
followed by the line break `"\n\r"` and the notice
`The dry-run flag was set. NO FILES WERE DELETED.`; the notice is none of the
lines written with dry-run off, and with dry-run on it is the last line and
written once; when neither the path nor a URI holds a line feed the same holds
of the lines of the text; for both values of dry-run the lines with debug on
are the debug block followed by the lines with debug off; on the delete result
of the test
the dry-run text and the debug-and-dry-run text are the ones the test
expects. -/
theorem printDeleteResponse_dryRun (res : DeleteDatasetResponse) (debug : Bool) :
    printDeleteResponse res true debug =
      printDeleteResponse res false debug ++ "\n\r" ++
        "The dry-run flag was set. NO FILES WERE DELETED." ∧
    reportLines res true debug =
      reportLines res false debug ++ ["\r" ++ "The dry-run flag was set. NO FILES WERE DELETED."] ∧
    ("\r" ++ "The dry-run flag was set. NO FILES WERE DELETED.") ∉ reportLines res false debug ∧
    "The dry-run flag was set. NO FILES WERE DELETED." ∉ reportLines res false debug ∧
    (reportLines res true debug).getLast? =
      some ("\r" ++ "The dry-run flag was set. NO FILES WERE DELETED.") ∧
    (reportLines res true debug).count
      ("\r" ++ "The dry-run flag was set. NO FILES WERE DELETED.") = 1 ∧
    ('\n' ∉ res.DatasetPath.data →
      (∀ v ∈ res.DatasetVersion, ∀ f ∈ v.DeletedFiles, '\n' ∉ f.URI.data) →
      textLines (printDeleteResponse res true debug) =
        textLines (printDeleteResponse res false debug) ++
          ["\r" ++ "The dry-run flag was set. NO FILES WERE DELETED."] ∧
      ("\r" ++ "The dry-run flag was set. NO FILES WERE DELETED.") ∉
        textLines (printDeleteResponse res false debug) ∧
      "The dry-run flag was set. NO FILES WERE DELETED." ∉
        textLines (printDeleteResponse res false debug)) ∧
    (∀ dryRun : Bool, reportLines res dryRun true = debugLines res ++ reportLines res dryRun false) ∧
    printDeleteResponse testResponse true false =
      "Dataset /foo/bar (2 versions) successfully deleted\n\r" ++
      "The dry-run flag was set. NO FILES WERE DELETED." ∧
    printDeleteResponse testResponse true true =
      "Version: 2000-01-01 00:00:00.123456 +0000 UTC\n" ++
      "\tgs://bucket/prefix/foo/bar/v1/file1\n" ++
      "\tgs://bucket/prefix/foo/bar/v1/file2\n" ++
      "Version: 3000-01-01 00:00:00.123456 +0000 UTC\n" ++
      "\tgs://bucket/prefix/foo/bar/v2/file1\n" ++
      "\tgs://bucket/prefix/foo/bar/v2/file2\n\n" ++
      "number of deleted files: 4\n" ++
      "total size of deleted files: 15\n" ++
      "Dataset /foo/bar (2 versions) successfully deleted\n\r" ++
      "The dry-run flag was set. NO FILES WERE DELETED." := by
  have hlines : reportLines res true debug =
      reportLines res false debug ++ ["\r" ++ "The dry-run flag was set. NO FILES WERE DELETED."] := by
    simp [reportLines, dryRunNotice]
  have hnot1 : ("\r" ++ "The dry-run flag was set. NO FILES WERE DELETED.") ∉
      reportLines res false debug := by
    intro hmem
    have hh := (reportLines_false_head res debug _ hmem).1
    simp [String.data_append] at hh
  have hnot2 : "The dry-run flag was set. NO FILES WERE DELETED." ∉
      reportLines res false debug := by
    intro hmem
    have hh := (reportLines_false_head res debug _ hmem).2
    simp at hh
  refine ⟨?_, hlines, hnot1, hnot2, ?_, ?_, ?_, ?_, testResponse_dryRun_texts.1,
    testResponse_dryRun_texts.2⟩
  · unfold printDeleteResponse
    rw [hlines, joinLines_append_singleton _ _ (reportLines_ne_nil res false debug)]
    simp only [String.append_assoc]
    rfl
  · rw [hlines]
    simp
  · rw [hlines, List.count_append, List.count_eq_zero_of_not_mem hnot1]
    simp
  · intro hpath huri
    rw [textLines_printDeleteResponse res true debug hpath huri,
      textLines_printDeleteResponse res false debug hpath huri]
    exact ⟨hlines, hnot1, hnot2⟩
  · intro dryRun
    simp [reportLines]

/-- C4: with debug on and dry-run off the text written is exactly, for each
version in input order, the line `Version: {timestamp}` followed by one line
of a tab and the URI per deleted file in input order, then a blank line, then
`number of deleted files:` with the sum of the per-version file counts, then
`total size of deleted files:` with the backend-supplied total as it is (the
text does not change when the file sizes do), then the summary line with the
number of versions; the file lines among the lines written are exactly the
tab-indented URIs, sum-of-counts many, and when neither the path nor a URI
holds a line feed the lines of the text are the lines written, so that the text
has exactly that many tab-indented lines; and the delete result of the test
yields the text the test expects. -/
theorem printDeleteResponse_debug (res : DeleteDatasetResponse) :
    printDeleteResponse res false true =
      terminatedLines (res.DatasetVersion.flatMap (fun v =>
        ("Version: " ++ formatTimestamp v.Timestamp) ::
          v.DeletedFiles.map (fun f => "\t" ++ f.URI))) ++
      "\n" ++
      "number of deleted files: " ++
        toString ((res.DatasetVersion.map (fun v => v.DeletedFiles.length)).sum) ++ "\n" ++
      "total size of deleted files: " ++ toString res.TotalSize ++ "\n" ++
      "Dataset " ++ res.DatasetPath ++ " (" ++ toString res.DatasetVersion.length ++
        " versions) successfully deleted" ∧
    (reportLines res false true).filter isFileLine =
      res.DatasetVersion.flatMap (fun v => v.DeletedFiles.map (fun f => "\t" ++ f.URI)) ∧
    ((reportLines res false true).filter isFileLine).length =
      (res.DatasetVersion.map (fun v => v.DeletedFiles.length)).sum ∧
    ('\n' ∉ res.DatasetPath.data →
      (∀ v ∈ res.DatasetVersion, ∀ f ∈ v.DeletedFiles, '\n' ∉ f.URI.data) →
      textLines (printDeleteResponse res false true) = reportLines res false true ∧
      ((textLines (printDeleteResponse res false true)).filter isFileLine).length =
        (res.DatasetVersion.map (fun v => v.DeletedFiles.length)).sum) ∧
    (∀ g : Nat → Nat,
      printDeleteResponse (mapSizes g res) false true = printDeleteResponse res false true) ∧
    printDeleteResponse testResponse false true =
      "Version: 2000-01-01 00:00:00.123456 +0000 UTC\n" ++
      "\tgs://bucket/prefix/foo/bar/v1/file1\n" ++
      "\tgs://bucket/prefix/foo/bar/v1/file2\n" ++
      "Version: 3000-01-01 00:00:00.123456 +0000 UTC\n" ++
      "\tgs://bucket/prefix/foo/bar/v2/file1\n" ++
      "\tgs://bucket/prefix/foo/bar/v2/file2\n\n" ++
      "number of deleted files: 4\n" ++
      "total size of deleted files: 15\n" ++
      "Dataset /foo/bar (2 versions) successfully deleted" := by
  have hcount : ((reportLines res false true).filter isFileLine).length =
      (res.DatasetVersion.map (fun v => v.DeletedFiles.length)).sum := by
    rw [filter_isFileLine_reportLines, length_flatMap_files]
  refine ⟨?_, filter_isFileLine_reportLines res, hcount, ?_, ?_, testResponse_debug_text⟩
  · unfold printDeleteResponse
    rw [reportLines_debug]
    have hsplit : res.DatasetVersion.flatMap versionLines ++
        ["", "number of deleted files: " ++ toString (deletedFileCount res),
          "total size of deleted files: " ++ toString res.TotalSize, summaryLine res] =
        (res.DatasetVersion.flatMap versionLines ++
          ["", "number of deleted files: " ++ toString (deletedFileCount res),
            "total size of deleted files: " ++ toString res.TotalSize]) ++ [summaryLine res] := by
      simp
    rw [hsplit, joinLines_append_singleton_terminated, terminatedLines_append]
    have hv : versionLines = fun v => ("Version: " ++ formatTimestamp v.Timestamp) ::
        v.DeletedFiles.map (fun f => "\t" ++ f.URI) := rfl
    rw [hv]
    simp only [terminatedLines, summaryLine, deletedFileCount, String.append_assoc,
      String.append_empty, String.empty_append]
  · intro hpath huri
    have ht := textLines_printDeleteResponse res false true hpath huri
    exact ⟨ht, by rw [ht]; exact hcount⟩
  · intro g
    unfold printDeleteResponse
    rw [reportLines_mapSizes]

theorem printDeleteResponse_debug_witness :
    ((textLines (printDeleteResponse testResponse false true)).filter isFileLine).length = 4 :=
  ((printDeleteResponse_debug testResponse).2.2.2.1 (by decide) (by decide)).2

theorem printDeleteResponse_dryRun_witness :
    textLines (printDeleteResponse testResponse true true) =
      textLines (printDeleteResponse testResponse false true) ++
        ["\r" ++ "The dry-run flag was set. NO FILES WERE DELETED."] :=
  ((printDeleteResponse_dryRun testResponse true).2.2.2.2.2.2.1 (by decide) (by decide)).1

end Cmd
end DaplaCli
